import Mathlib

/-!
Verification of the ZK-unbanked-demo repository against its specification.

The central object is the `UnbankedLending` contract
(src/contracts/contracts/UnbankedCommunityAirdrop.sol, second contract in the
file, lines 315-730).  It is embedded shallowly: Solidity `uint256` becomes
`Nat` (Solidity 0.8 checked arithmetic reverts on underflow; the embedding
uses truncating `Nat` subtraction and, where a claim depends on it, we prove
separately that the subtraction is exact on the states concerned, so the two
semantics agree there), addresses become `Nat`, mappings become total
functions with the Solidity zero-value default, and every state-modifying
entry point becomes a function `LendingState → Except LendingError α ×
LendingState` whose second component is the storage as mutated up to the
return or revert point, statements translated in source order.  The EVM
discards the mutations of a reverting call; `commit` below applies exactly
that semantics.  ERC20 token transfers are external calls whose balances are
not part of this contract's storage and are not modelled.

The identity and airdrop registration hooks and the Express backend handlers
(src/unnamed/part_004, src/unnamed/part_006) are embedded further down.
-/

namespace ZKUnbanked

/-- Loan record, from `struct Loan` (UnbankedLending). -/
structure Loan where
  id : Nat
  borrower : Nat
  amount : Nat
  duration : Nat
  interestRate : Nat
  startTime : Nat
  endTime : Nat
  repaidAmount : Nat
  approved : Bool
  active : Bool
  defaulted : Bool
  collateralAmount : Nat
deriving DecidableEq

/-- Solidity zero value of `Loan`, returned by the `loans` mapping for keys
never written. -/
def defaultLoan : Loan :=
  { id := 0, borrower := 0, amount := 0, duration := 0, interestRate := 0,
    startTime := 0, endTime := 0, repaidAmount := 0, approved := false,
    active := false, defaulted := false, collateralAmount := 0 }

/-- Borrower record, from `struct BorrowerProfile` (UnbankedLending). -/
structure BorrowerProfile where
  totalBorrowed : Nat
  totalRepaid : Nat
  activeLoans : Nat
  defaultedLoans : Nat
  lastLoanTime : Nat
  isBanned : Bool
deriving DecidableEq

/-- Solidity zero value of `BorrowerProfile`. -/
def defaultProfile : BorrowerProfile :=
  { totalBorrowed := 0, totalRepaid := 0, activeLoans := 0,
    defaultedLoans := 0, lastLoanTime := 0, isBanned := false }

/-- The slice of `IUnbankedIdentity.getUserData` that `requestLoan` reads. -/
structure IdentityView where
  isRegistered : Bool
  reputationScore : Nat
deriving DecidableEq

/-- Immutable environment of the lending contract: the `Ownable` owner and
the external identity contract (`identityContract.getUserData`). -/
structure LendingEnv where
  owner : Nat
  identity : Nat → IdentityView

/-- Storage of `UnbankedLending`. -/
structure LendingState where
  loanCounter : Nat
  totalPoolFunds : Nat
  totalActiveLoans : Nat
  loans : Nat → Loan
  borrowerProfiles : Nat → BorrowerProfile
  userLoans : Nat → List Nat
  collateralBalances : Nat → Nat

/-- Storage of a freshly deployed `UnbankedLending` contract. -/
def initialLendingState : LendingState :=
  { loanCounter := 0, totalPoolFunds := 0, totalActiveLoans := 0,
    loans := fun _ => defaultLoan,
    borrowerProfiles := fun _ => defaultProfile,
    userLoans := fun _ => [],
    collateralBalances := fun _ => 0 }

def MIN_LOAN_AMOUNT : Nat := 10 * 10 ^ 18

def MAX_LOAN_AMOUNT : Nat := 1000 * 10 ^ 18

/-- `7 days`, in seconds. -/
def MIN_LOAN_DURATION : Nat := 7 * 86400

/-- `90 days`, in seconds. -/
def MAX_LOAN_DURATION : Nat := 90 * 86400

def BASE_INTEREST_RATE : Nat := 1200

def MAX_ACTIVE_LOANS_PER_USER : Nat := 3

def MIN_REPUTATION_FOR_LOAN : Nat := 50

def COLLATERAL_RATIO : Nat := 150

/-- Custom errors of `UnbankedLending`, plus `NotOwner` for the revert of the
OpenZeppelin `onlyOwner` modifier. -/
inductive LendingError where
  | NotRegistered
  | InsufficientReputation
  | LoanNotFound
  | LoanAlreadyApproved
  | LoanNotApproved
  | LoanExpired
  | InsufficientFunds
  | InvalidAmount
  | UnauthorizedAccess
  | NotOwner
deriving DecidableEq

/-- True exactly on the `Except.error` constructor. -/
def isErr {ε α : Type} : Except ε α → Bool
  | .error _ => true
  | .ok _ => false

/-- `calculateInterestRate` (view, lines 632-662). -/
def calculateInterestRate (s : LendingState) (borrower reputationScore : Nat) : Nat :=
  let profile := s.borrowerProfiles borrower
  let rate := BASE_INTEREST_RATE
  let rate :=
    if reputationScore > 100 then rate * 80 / 100
    else if reputationScore > 75 then rate * 90 / 100
    else rate
  let rate :=
    if profile.defaultedLoans > 0 then
      rate * (100 + profile.defaultedLoans * 10) / 100
    else rate
  let rate :=
    if profile.totalRepaid > profile.totalBorrowed ∧ profile.defaultedLoans = 0 then
      rate * 95 / 100
    else rate
  rate

/-- `calculateTotalDue` (view, lines 668-681); `now` is `block.timestamp`.
On-chain `block.timestamp ≥ loan.startTime` for every active loan, so the
truncating subtraction `now - loan.startTime` is exact there. -/
def calculateTotalDue (now : Nat) (s : LendingState) (loanId : Nat) : Nat :=
  let loan := s.loans loanId
  if loan.id = 0 then 0
  else
    let timeElapsed := if now > loan.endTime then loan.duration else now - loan.startTime
    let interest := loan.amount * loan.interestRate * timeElapsed / (10000 * 365 * 86400)
    loan.amount + interest

/-- `requestLoan` (lines 416-477); `sender` is `msg.sender`. -/
def requestLoan (env : LendingEnv) (sender amount duration : Nat)
    (s : LendingState) : Except LendingError Nat × LendingState :=
  if amount < MIN_LOAN_AMOUNT ∨ amount > MAX_LOAN_AMOUNT then
    (.error .InvalidAmount, s)
  else if duration < MIN_LOAN_DURATION ∨ duration > MAX_LOAN_DURATION then
    (.error .InvalidAmount, s)
  else
    let idv := env.identity sender
    if ¬ idv.isRegistered then (.error .NotRegistered, s)
    else if idv.reputationScore < MIN_REPUTATION_FOR_LOAN then
      (.error .InsufficientReputation, s)
    else
      let profile := s.borrowerProfiles sender
      if profile.isBanned then (.error .UnauthorizedAccess, s)
      else if profile.activeLoans ≥ MAX_ACTIVE_LOANS_PER_USER then
        (.error .UnauthorizedAccess, s)
      else
        let interestRate := calculateInterestRate s sender idv.reputationScore
        if s.totalPoolFunds < amount then (.error .InsufficientFunds, s)
        else
          let loanId := s.loanCounter + 1
          let newLoan : Loan :=
            { id := loanId, borrower := sender, amount := amount,
              duration := duration, interestRate := interestRate,
              startTime := 0, endTime := 0, repaidAmount := 0,
              approved := false, active := false, defaulted := false,
              collateralAmount := 0 }
          (.ok loanId,
            { s with
              loanCounter := loanId,
              loans := Function.update s.loans loanId newLoan,
              userLoans := Function.update s.userLoans sender
                (s.userLoans sender ++ [loanId]) })

/-- `approveLoan` (lines 483-507, `onlyOwner`); `now` is `block.timestamp`. -/
def approveLoan (env : LendingEnv) (now caller loanId : Nat)
    (s : LendingState) : Except LendingError Unit × LendingState :=
  if caller ≠ env.owner then (.error .NotOwner, s)
  else
    let loan := s.loans loanId
    if loan.id = 0 then (.error .LoanNotFound, s)
    else if loan.approved then (.error .LoanAlreadyApproved, s)
    else if s.totalPoolFunds < loan.amount then (.error .InsufficientFunds, s)
    else
      let loan' := { loan with approved := true, active := true,
                               startTime := now, endTime := now + loan.duration }
      let profile := s.borrowerProfiles loan.borrower
      (.ok (),
        { s with
          loans := Function.update s.loans loanId loan',
          totalPoolFunds := s.totalPoolFunds - loan.amount,
          totalActiveLoans := s.totalActiveLoans + loan.amount,
          borrowerProfiles := Function.update s.borrowerProfiles loan.borrower
            { profile with
              activeLoans := profile.activeLoans + 1,
              totalBorrowed := profile.totalBorrowed + loan.amount,
              lastLoanTime := now } })

/-- `repayLoan` (lines 514-559). -/
def repayLoan (now sender loanId amount : Nat)
    (s : LendingState) : Except LendingError Unit × LendingState :=
  let loan := s.loans loanId
  if loan.id = 0 then (.error .LoanNotFound, s)
  else if ¬ loan.active then (.error .LoanNotApproved, s)
  else if loan.borrower ≠ sender then (.error .UnauthorizedAccess, s)
  else if amount = 0 then (.error .InvalidAmount, s)
  else
    let totalDue := calculateTotalDue now s loanId
    let remainingDebt := totalDue - loan.repaidAmount
    let repaymentAmount := if amount > remainingDebt then remainingDebt else amount
    let loan1 := { loan with repaidAmount := loan.repaidAmount + repaymentAmount }
    let s1 := { s with loans := Function.update s.loans loanId loan1,
                       totalPoolFunds := s.totalPoolFunds + repaymentAmount }
    let isFullRepayment := loan1.repaidAmount ≥ totalDue
    if isFullRepayment then
      let profile := s1.borrowerProfiles loan.borrower
      let loan2 := { loan1 with active := false }
      let s2 := { s1 with
        loans := Function.update s1.loans loanId loan2,
        totalActiveLoans := s1.totalActiveLoans - loan.amount,
        borrowerProfiles := Function.update s1.borrowerProfiles loan.borrower
          { profile with
            activeLoans := profile.activeLoans - 1,
            totalRepaid := profile.totalRepaid + loan1.repaidAmount } }
      if loan2.collateralAmount > 0 then
        (.ok (),
          { s2 with
            collateralBalances := Function.update s2.collateralBalances loan.borrower
              (s2.collateralBalances loan.borrower + loan2.collateralAmount),
            loans := Function.update s2.loans loanId
              { loan2 with collateralAmount := 0 } })
      else (.ok (), s2)
    else (.ok (), s1)

/-- `depositCollateral` (lines 566-577). -/
def depositCollateral (sender loanId amount : Nat)
    (s : LendingState) : Except LendingError Unit × LendingState :=
  let loan := s.loans loanId
  if loan.id = 0 then (.error .LoanNotFound, s)
  else if loan.borrower ≠ sender then (.error .UnauthorizedAccess, s)
  else if ¬ loan.active then (.error .LoanNotApproved, s)
  else
    (.ok (),
      { s with loans := (Function.update s.loans loanId
          { loan with collateralAmount := loan.collateralAmount + amount }) })

/-- `markAsDefaulted` (lines 583-612, `onlyOwner`). -/
def markAsDefaulted (env : LendingEnv) (now caller loanId : Nat)
    (s : LendingState) : Except LendingError Unit × LendingState :=
  if caller ≠ env.owner then (.error .NotOwner, s)
  else
    let loan := s.loans loanId
    if loan.id = 0 then (.error .LoanNotFound, s)
    else if ¬ loan.active then (.error .LoanNotApproved, s)
    else if now ≤ loan.endTime then (.error .LoanExpired, s)
    else
      let loan' := { loan with defaulted := true, active := false }
      let profile := s.borrowerProfiles loan.borrower
      let s1 := { s with
        loans := Function.update s.loans loanId loan',
        borrowerProfiles := Function.update s.borrowerProfiles loan.borrower
          { profile with
            activeLoans := profile.activeLoans - 1,
            defaultedLoans := profile.defaultedLoans + 1 } }
      let s2 :=
        if loan'.collateralAmount > 0 then
          { s1 with
            totalPoolFunds := s1.totalPoolFunds + loan'.collateralAmount,
            loans := Function.update s1.loans loanId
              { loan' with collateralAmount := 0 } }
        else s1
      (.ok (), { s2 with totalActiveLoans := s2.totalActiveLoans - loan.amount })

/-- `fundPool` (lines 618-625). -/
def fundPool (amount : Nat)
    (s : LendingState) : Except LendingError Unit × LendingState :=
  if amount = 0 then (.error .InvalidAmount, s)
  else (.ok (), { s with totalPoolFunds := s.totalPoolFunds + amount })

/-- `withdrawFromPool` (lines 715-720, `onlyOwner`). -/
def withdrawFromPool (env : LendingEnv) (caller amount : Nat)
    (s : LendingState) : Except LendingError Unit × LendingState :=
  if caller ≠ env.owner then (.error .NotOwner, s)
  else if amount > s.totalPoolFunds then (.error .InsufficientFunds, s)
  else (.ok (), { s with totalPoolFunds := s.totalPoolFunds - amount })

/-- `setBorrowerBan` (lines 727-729, `onlyOwner`). -/
def setBorrowerBan (env : LendingEnv) (caller borrower : Nat) (banned : Bool)
    (s : LendingState) : Except LendingError Unit × LendingState :=
  if caller ≠ env.owner then (.error .NotOwner, s)
  else
    let profile := s.borrowerProfiles borrower
    (.ok (),
      { s with borrowerProfiles := (Function.update s.borrowerProfiles borrower
          { profile with isBanned := banned }) })

/-- One external transaction against `UnbankedLending`: the entry point, its
caller and arguments, and the block timestamp. -/
inductive LendingOp where
  | requestLoan (sender amount duration : Nat)
  | approveLoan (now caller loanId : Nat)
  | repayLoan (now sender loanId amount : Nat)
  | depositCollateral (sender loanId amount : Nat)
  | markAsDefaulted (now caller loanId : Nat)
  | fundPool (sender amount : Nat)
  | withdrawFromPool (caller amount : Nat)
  | setBorrowerBan (caller borrower : Nat) (banned : Bool)

/-- EVM commit semantics: a successful call keeps its storage writes, a
reverting call discards them. -/
def commit {α : Type} (s : LendingState)
    (r : Except LendingError α × LendingState) : LendingState :=
  match r with
  | (.ok _, s') => s'
  | (.error _, _) => s

/-- Effect of one transaction on the contract storage. -/
def lendingStep (env : LendingEnv) (op : LendingOp) (s : LendingState) : LendingState :=
  match op with
  | .requestLoan sender amount duration => commit s (requestLoan env sender amount duration s)
  | .approveLoan now caller loanId => commit s (approveLoan env now caller loanId s)
  | .repayLoan now sender loanId amount => commit s (repayLoan now sender loanId amount s)
  | .depositCollateral sender loanId amount => commit s (depositCollateral sender loanId amount s)
  | .markAsDefaulted now caller loanId => commit s (markAsDefaulted env now caller loanId s)
  | .fundPool _ amount => commit s (fundPool amount s)
  | .withdrawFromPool caller amount => commit s (withdrawFromPool env caller amount s)
  | .setBorrowerBan caller borrower banned => commit s (setBorrowerBan env caller borrower banned s)

/-- Storage after a sequence of transactions. -/
def execTrace (env : LendingEnv) (ops : List LendingOp) (s : LendingState) : LendingState :=
  ops.foldl (fun t op => lendingStep env op t) s

/-- The interest-rate computation as the specification describes it, a
function of the reputation score and the borrower profile fields only:
`BASE_INTEREST_RATE` multiplied by `80/100` if the score exceeds 100, else by
`90/100` if it exceeds 75; then by `(100 + 10 * defaultedLoans)/100` if there
are defaults; then by `95/100` if `totalRepaid > totalBorrowed` and there are
no defaults, each step in integer division. -/
def claimedInterestRate (reputationScore defaultedLoans totalRepaid totalBorrowed : Nat) : Nat :=
  let r1 :=
    if reputationScore > 100 then BASE_INTEREST_RATE * 80 / 100
    else if reputationScore > 75 then BASE_INTEREST_RATE * 90 / 100
    else BASE_INTEREST_RATE
  let r2 := if defaultedLoans > 0 then r1 * (100 + 10 * defaultedLoans) / 100 else r1
  if totalRepaid > totalBorrowed ∧ defaultedLoans = 0 then r2 * 95 / 100 else r2

/-- Contribution of one loan record to the active-loan total: its principal
when the loan is active, nothing otherwise. -/
def contrib (l : Loan) : Nat :=
  if l.active then l.amount else 0

/-- Sum of `loan.amount` over the active loans.  Loan ids are `1 ..
loanCounter` (`requestLoan` assigns `++loanCounter`), and keys outside that
interval hold the Solidity zero value, which is inactive, so the range below
covers every active loan. -/
def activeSum (s : LendingState) : Nat :=
  ∑ i in Finset.range (s.loanCounter + 1), contrib (s.loans i)

/-- Structural invariant of the loan book: keys outside `1 .. loanCounter`
are unwritten (zero value), written records carry their own key in `id`, and
the lifecycle flags are consistent. -/
def LoanBook (s : LendingState) : Prop :=
  (∀ i, s.loanCounter < i → s.loans i = defaultLoan) ∧
  s.loans 0 = defaultLoan ∧
  (∀ i, 1 ≤ i → i ≤ s.loanCounter → (s.loans i).id = i) ∧
  (∀ i, (s.loans i).active = true → (s.loans i).approved = true) ∧
  (∀ i, (s.loans i).defaulted = true → (s.loans i).approved = true) ∧
  (∀ i, ¬((s.loans i).active = true ∧ (s.loans i).defaulted = true))

/-- The inductive invariant carried through every transaction. -/
def LendingInv (s : LendingState) : Prop :=
  LoanBook s ∧ s.totalActiveLoans = activeSum s

/-- A demo environment: the owner is address 0 and every address reads back
from the identity contract as registered with reputation 60. -/
def demoEnv : LendingEnv :=
  { owner := 0, identity := fun _ => { isRegistered := true, reputationScore := 60 } }

/-- Fund the pool, let user 5 request four loans of 10 tokens for 7 days
while having no active loan, then have the owner approve all four. -/
def fourLoanOps : List LendingOp :=
  [.fundPool 9 (40 * 10 ^ 18),
   .requestLoan 5 (10 * 10 ^ 18) (7 * 86400),
   .requestLoan 5 (10 * 10 ^ 18) (7 * 86400),
   .requestLoan 5 (10 * 10 ^ 18) (7 * 86400),
   .requestLoan 5 (10 * 10 ^ 18) (7 * 86400),
   .approveLoan 0 0 1, .approveLoan 0 0 2, .approveLoan 0 0 3, .approveLoan 0 0 4]

/-- Fund the pool, let user 5 request one loan, and approve it without any
collateral ever having been deposited. -/
def approveNoCollateralOps : List LendingOp :=
  [.fundPool 9 (10 * 10 ^ 18),
   .requestLoan 5 (10 * 10 ^ 18) (7 * 86400),
   .approveLoan 0 0 1]

/-- Fund, request, approve at time 0, then default the loan after its
`endTime` (7 days) has passed. -/
def defaultedLoanOps : List LendingOp :=
  [.fundPool 9 (10 * 10 ^ 18),
   .requestLoan 5 (10 * 10 ^ 18) (7 * 86400),
   .approveLoan 0 0 1,
   .markAsDefaulted (7 * 86400 + 1) 0 1]

/-!  The `UnbankedIdentity` contract (src/unnamed/part_004): the
registration hook called by the Self Protocol hub after a successful proof,
which is the only writer of `nullifierToUserIdentifier`. -/

/-- Per-user record, from `struct UserData` (UnbankedIdentity). -/
structure IdUserData where
  isRegistered : Bool
  reputationScore : Nat
  registrationTime : Nat
  attesters : Nat → Bool
  attestationCount : Nat

/-- Solidity zero value of `UserData`. -/
def defaultIdUserData : IdUserData :=
  { isRegistered := false, reputationScore := 0, registrationTime := 0,
    attesters := fun _ => false, attestationCount := 0 }

/-- Storage of `UnbankedIdentity` touched by the registration hook. -/
structure IdentityState where
  nullifierToUserIdentifier : Nat → Nat
  userData : Nat → IdUserData
  totalUsers : Nat

/-- Storage of a freshly deployed `UnbankedIdentity` contract. -/
def initialIdentityState : IdentityState :=
  { nullifierToUserIdentifier := fun _ => 0,
    userData := fun _ => defaultIdUserData,
    totalUsers := 0 }

/-- Custom errors of `UnbankedIdentity` (those the hook can raise). -/
inductive IdentityError where
  | AlreadyRegistered
deriving DecidableEq

/-- `UnbankedIdentity.customVerificationHook` (part_004 lines 115-150);
`userDataLen` is `_userData.length`. -/
def identityVerificationHook (now nullifier userIdentifier userDataLen : Nat)
    (s : IdentityState) : Except IdentityError Unit × IdentityState :=
  if s.nullifierToUserIdentifier nullifier ≠ 0 then (.error .AlreadyRegistered, s)
  else
    let u := s.userData userIdentifier
    let u1 := { u with isRegistered := true, registrationTime := now,
                       reputationScore := 10 }
    let u2 :=
      if userDataLen > 0 then { u1 with attestationCount := u1.attestationCount + 1 }
      else u1
    (.ok (),
      { s with
        nullifierToUserIdentifier :=
          Function.update s.nullifierToUserIdentifier nullifier userIdentifier,
        userData := Function.update s.userData userIdentifier u2,
        totalUsers := s.totalUsers + 1 })

/-- Arguments of one hub-delivered verification against `UnbankedIdentity`. -/
structure HookCall where
  now : Nat
  nullifier : Nat
  userIdentifier : Nat
  userDataLen : Nat

/-- EVM commit semantics for one verification: a reverting hook leaves the
storage untouched. -/
def identityHookStep (c : HookCall) (s : IdentityState) : IdentityState :=
  match identityVerificationHook c.now c.nullifier c.userIdentifier c.userDataLen s with
  | (.ok _, s') => s'
  | (.error _, _) => s

/-- Storage after a sequence of verifications. -/
def execHooks (cs : List HookCall) (s : IdentityState) : IdentityState :=
  cs.foldl (fun t c => identityHookStep c t) s

/-!  The `UnbankedCommunityAirdrop` contract (first contract of
UnbankedCommunityAirdrop.sol): its registration hook. -/

/-- `enum Phase`. -/
inductive Phase where
  | Setup
  | Registration
  | Claim
  | Ended
deriving DecidableEq

/-- Per-user record, from `struct UserData` (UnbankedCommunityAirdrop). -/
structure AirdropUserData where
  isRegistered : Bool
  hasClaimed : Bool
  baseAllocation : Nat
  reputationBonus : Nat
  registrationTime : Nat
deriving DecidableEq

/-- Solidity zero value of the airdrop `UserData`. -/
def defaultAirdropUserData : AirdropUserData :=
  { isRegistered := false, hasClaimed := false, baseAllocation := 0,
    reputationBonus := 0, registrationTime := 0 }

/-- Custom errors of `UnbankedCommunityAirdrop` the hook can raise. -/
inductive AirdropError where
  | RegistrationNotOpen
  | AlreadyRegistered
deriving DecidableEq

/-- Storage of `UnbankedCommunityAirdrop` touched by the registration hook. -/
structure AirdropState where
  currentPhase : Phase
  nullifierToUserIdentifier : Nat → Nat
  userData : Nat → AirdropUserData
  totalRegistered : Nat

def BASE_ALLOCATION : Nat := 100 * 10 ^ 18

def EARLY_BIRD_BONUS : Nat := 20 * 10 ^ 18

/-- `UnbankedCommunityAirdrop.customVerificationHook` (lines 103-133). -/
def airdropVerificationHook (now nullifier userIdentifier : Nat)
    (s : AirdropState) : Except AirdropError Unit × AirdropState :=
  if s.currentPhase ≠ .Registration then (.error .RegistrationNotOpen, s)
  else if s.nullifierToUserIdentifier nullifier ≠ 0 then (.error .AlreadyRegistered, s)
  else
    let u := s.userData userIdentifier
    let u1 := { u with isRegistered := true, baseAllocation := BASE_ALLOCATION,
                       registrationTime := now }
    let u2 :=
      if s.totalRegistered < 100 then
        { u1 with reputationBonus := u1.reputationBonus + EARLY_BIRD_BONUS }
      else u1
    (.ok (),
      { s with
        nullifierToUserIdentifier :=
          Function.update s.nullifierToUserIdentifier nullifier userIdentifier,
        userData := Function.update s.userData userIdentifier u2,
        totalRegistered := s.totalRegistered + 1 })

/-!  The Express backend (src/unnamed/part_006).  The in-memory store is the
two maps `users` and `nullifierToUser`; JavaScript numbers are modelled as
`ℚ` (exact for every value these handlers produce), and the SDK call
`selfBackendVerifier.verify` is an external oracle whose outcome is part of
the request model.  The handlers `handleAddAttestation`, `handleAirdrop` and
`handleGetProfile`, and the missing-field 400 responses, are not needed by
any claim settled here and are omitted from the dispatch model. -/

/-- A transaction record as pushed by the modelled handlers (string id and
timestamp fields elided; no modelled handler reads them). -/
inductive BackendTxn where
  | microloan (amount : ℚ)
  | governance (proposalId vote : String)
deriving DecidableEq

/-- The `User` record of the mock database. -/
structure BackendUser where
  nullifier : String
  userIdentifier : String
  reputationScore : ℚ
  attestations : List String
  transactions : List BackendTxn
deriving DecidableEq

/-- The backend's in-memory store: `users` and `nullifierToUser`. -/
structure BackendState where
  users : String → Option BackendUser
  nullifierToUser : String → Option String

/-- Both maps empty, as at server start. -/
def emptyBackendState : BackendState :=
  { users := fun _ => none, nullifierToUser := fun _ => none }

/-- Outcome of `selfBackendVerifier.verify` as far as `handleVerification`
consumes it: validity, the user identifier, and the disclosed nullifier when
present. -/
structure VerifyOutcome where
  isValid : Bool
  userIdentifier : String
  nullifier : Option String
deriving DecidableEq

/-- `result.discloseOutput?.nullifier || userIdentifier`: the JavaScript
`||` falls through on a missing or empty (falsy) nullifier. -/
def resolvedNullifier (v : VerifyOutcome) : String :=
  match v.nullifier with
  | some n => if n = "" then v.userIdentifier else n
  | none => v.userIdentifier

/-- `handleVerification` (part_006 lines 173-309), returning the HTTP
status.  The on-chain check after registration is caught and does not affect
the store or the status. -/
def handleVerification (v : VerifyOutcome) (s : BackendState) : Nat × BackendState :=
  if v.isValid = false then (400, s)
  else
    let n := resolvedNullifier v
    if (s.nullifierToUser n).isSome then (409, s)
    else
      let newUser : BackendUser :=
        { nullifier := n, userIdentifier := v.userIdentifier,
          reputationScore := 0, attestations := [], transactions := [] }
      (200,
        { users := Function.update s.users v.userIdentifier (some newUser),
          nullifierToUser := Function.update s.nullifierToUser n (some v.userIdentifier) })

/-- Response of `handleMicroloan`. -/
structure MicroloanResponse where
  status : Nat
  approvedAmount : Option ℚ
deriving DecidableEq

/-- `handleMicroloan` (part_006 lines 396-449).  An unknown user gets a
minimal record with `reputationScore` 50 (the `unknown_` timestamp suffix of
its nullifier is elided); `requestedAmount || maxLoanAmount` falls through
on a missing or zero (falsy) requested amount. -/
def handleMicroloan (uid : String) (requestedAmount : Option ℚ)
    (s : BackendState) : MicroloanResponse × BackendState :=
  let user :=
    match s.users uid with
    | some u => u
    | none =>
        { nullifier := "unknown", userIdentifier := uid, reputationScore := 50,
          attestations := [], transactions := [] }
  let s1 :=
    match s.users uid with
    | some _ => s
    | none => { s with users := Function.update s.users uid (some user) }
  if user.reputationScore < 50 then ({ status := 403, approvedAmount := none }, s1)
  else
    let maxLoanAmount := min (50 + user.reputationScore * (1 / 2 : ℚ)) 500
    let requested :=
      match requestedAmount with
      | some r => if r = 0 then maxLoanAmount else r
      | none => maxLoanAmount
    let approvedAmount := min requested maxLoanAmount
    let user1 := { user with transactions := user.transactions ++ [.microloan approvedAmount] }
    ({ status := 200, approvedAmount := some approvedAmount },
      { s1 with users := Function.update s1.users uid (some user1) })

/-- `handleGovernance` (part_006 lines 526-591).  An unknown user gets a
minimal record with `reputationScore` 100; the on-chain vote is caught and
does not affect the store or the status; `vote || "Yes"` falls through on an
empty vote. -/
def handleGovernance (uid proposalId vote : String)
    (s : BackendState) : Nat × BackendState :=
  let user :=
    match s.users uid with
    | some u => u
    | none =>
        { nullifier := "unknown", userIdentifier := uid, reputationScore := 100,
          attestations := [], transactions := [] }
  let s1 :=
    match s.users uid with
    | some _ => s
    | none => { s with users := Function.update s.users uid (some user) }
  if user.reputationScore < 100 then (403, s1)
  else
    let v := if vote = "" then "Yes" else vote
    let user1 := { user with transactions := user.transactions ++ [.governance proposalId v] }
    (200, { s1 with users := Function.update s1.users uid (some user1) })

/-- Response of the `POST /api/verify` dispatch. -/
structure ApiResponse where
  status : Nat
  approvedAmount : Option ℚ
deriving DecidableEq

/-- One request to `POST /api/verify`, for the modelled actions: a Self
Protocol shaped body, or an action-dispatch body. -/
inductive ApiRequest where
  | selfVerify (v : VerifyOutcome)
  | verifyAction (v : VerifyOutcome)
  | applyMicroloan (uid : String) (requestedAmount : Option ℚ)
  | castVote (uid proposalId vote : String)
  | invalidAction

/-- The `POST /api/verify` dispatch switch (part_006 lines 123-170) over the
modelled actions. -/
def apiVerify (req : ApiRequest) (s : BackendState) : ApiResponse × BackendState :=
  match req with
  | .selfVerify v =>
      let r := handleVerification v s
      ({ status := r.1, approvedAmount := none }, r.2)
  | .verifyAction v =>
      let r := handleVerification v s
      ({ status := r.1, approvedAmount := none }, r.2)
  | .applyMicroloan uid requestedAmount =>
      let r := handleMicroloan uid requestedAmount s
      ({ status := r.1.status, approvedAmount := r.1.approvedAmount }, r.2)
  | .castVote uid proposalId vote =>
      let r := handleGovernance uid proposalId vote s
      ({ status := r.1, approvedAmount := none }, r.2)
  | .invalidAction => ({ status := 400, approvedAmount := none }, s)

/-- A concrete valid verification request with a fresh nullifier. -/
def aliceRequest : ApiRequest :=
  .selfVerify { isValid := true, userIdentifier := "alice", nullifier := some "nullifier-1" }

/-- The repayment actually applied by `repayLoan`: the requested amount,
capped at the remaining debt. -/
def repaymentAmountOf (now : Nat) (s : LendingState) (loanId amount : Nat) : Nat :=
  let remainingDebt := calculateTotalDue now s loanId - (s.loans loanId).repaidAmount
  if amount > remainingDebt then remainingDebt else amount

/-- C3: for every borrower and reputation score, `calculateInterestRate`
computes exactly the transformation chain stated in the specification, in
that order, from the borrower's profile fields. -/
theorem calculateInterestRate_matches_claim (s : LendingState) (borrower reputationScore : Nat) :
    calculateInterestRate s borrower reputationScore =
      claimedInterestRate reputationScore
        (s.borrowerProfiles borrower).defaultedLoans
        (s.borrowerProfiles borrower).totalRepaid
        (s.borrowerProfiles borrower).totalBorrowed := by
  simp only [calculateInterestRate, claimedInterestRate]
  rw [Nat.mul_comm ((s.borrowerProfiles borrower).defaultedLoans) 10]

/-- Branch of `requestLoan`: amount out of range. -/
theorem requestLoan_amount_invalid (env : LendingEnv) (sender amount duration : Nat)
    (s : LendingState) (h : amount < MIN_LOAN_AMOUNT ∨ amount > MAX_LOAN_AMOUNT) :
    requestLoan env sender amount duration s = (.error .InvalidAmount, s) := by
  simp only [requestLoan]
  rw [if_pos h]

/-- Branch of `requestLoan`: duration out of range. -/
theorem requestLoan_duration_invalid (env : LendingEnv) (sender amount duration : Nat)
    (s : LendingState) (h1 : ¬(amount < MIN_LOAN_AMOUNT ∨ amount > MAX_LOAN_AMOUNT))
    (h2 : duration < MIN_LOAN_DURATION ∨ duration > MAX_LOAN_DURATION) :
    requestLoan env sender amount duration s = (.error .InvalidAmount, s) := by
  simp only [requestLoan]
  rw [if_neg h1, if_pos h2]

/-- Branch of `requestLoan`: caller not registered. -/
theorem requestLoan_not_registered (env : LendingEnv) (sender amount duration : Nat)
    (s : LendingState) (h1 : ¬(amount < MIN_LOAN_AMOUNT ∨ amount > MAX_LOAN_AMOUNT))
    (h2 : ¬(duration < MIN_LOAN_DURATION ∨ duration > MAX_LOAN_DURATION))
    (h3 : (env.identity sender).isRegistered = false) :
    requestLoan env sender amount duration s = (.error .NotRegistered, s) := by
  simp only [requestLoan]
  rw [if_neg h1, if_neg h2, if_pos (by simp [h3])]

/-- Branch of `requestLoan`: reputation below the threshold. -/
theorem requestLoan_low_reputation (env : LendingEnv) (sender amount duration : Nat)
    (s : LendingState) (h1 : ¬(amount < MIN_LOAN_AMOUNT ∨ amount > MAX_LOAN_AMOUNT))
    (h2 : ¬(duration < MIN_LOAN_DURATION ∨ duration > MAX_LOAN_DURATION))
    (h3 : (env.identity sender).isRegistered = true)
    (h4 : (env.identity sender).reputationScore < MIN_REPUTATION_FOR_LOAN) :
    requestLoan env sender amount duration s = (.error .InsufficientReputation, s) := by
  simp only [requestLoan]
  rw [if_neg h1, if_neg h2, if_neg (by simp [h3]), if_pos h4]

/-- Branch of `requestLoan`: caller banned. -/
theorem requestLoan_banned (env : LendingEnv) (sender amount duration : Nat)
    (s : LendingState) (h1 : ¬(amount < MIN_LOAN_AMOUNT ∨ amount > MAX_LOAN_AMOUNT))
    (h2 : ¬(duration < MIN_LOAN_DURATION ∨ duration > MAX_LOAN_DURATION))
    (h3 : (env.identity sender).isRegistered = true)
    (h4 : ¬(env.identity sender).reputationScore < MIN_REPUTATION_FOR_LOAN)
    (h5 : (s.borrowerProfiles sender).isBanned = true) :
    requestLoan env sender amount duration s = (.error .UnauthorizedAccess, s) := by
  simp only [requestLoan]
  rw [if_neg h1, if_neg h2, if_neg (by simp [h3]), if_neg h4, if_pos h5]

/-- Branch of `requestLoan`: active-loan cap already reached at request time. -/
theorem requestLoan_cap_reached (env : LendingEnv) (sender amount duration : Nat)
    (s : LendingState) (h1 : ¬(amount < MIN_LOAN_AMOUNT ∨ amount > MAX_LOAN_AMOUNT))
    (h2 : ¬(duration < MIN_LOAN_DURATION ∨ duration > MAX_LOAN_DURATION))
    (h3 : (env.identity sender).isRegistered = true)
    (h4 : ¬(env.identity sender).reputationScore < MIN_REPUTATION_FOR_LOAN)
    (h5 : (s.borrowerProfiles sender).isBanned = false)
    (h6 : (s.borrowerProfiles sender).activeLoans ≥ MAX_ACTIVE_LOANS_PER_USER) :
    requestLoan env sender amount duration s = (.error .UnauthorizedAccess, s) := by
  simp only [requestLoan]
  rw [if_neg h1, if_neg h2, if_neg (by simp [h3]), if_neg h4, if_neg (by simp [h5]), if_pos h6]

/-- Branch of `requestLoan`: pool cannot cover the amount. -/
theorem requestLoan_pool_insufficient (env : LendingEnv) (sender amount duration : Nat)
    (s : LendingState) (h1 : ¬(amount < MIN_LOAN_AMOUNT ∨ amount > MAX_LOAN_AMOUNT))
    (h2 : ¬(duration < MIN_LOAN_DURATION ∨ duration > MAX_LOAN_DURATION))
    (h3 : (env.identity sender).isRegistered = true)
    (h4 : ¬(env.identity sender).reputationScore < MIN_REPUTATION_FOR_LOAN)
    (h5 : (s.borrowerProfiles sender).isBanned = false)
    (h6 : ¬(s.borrowerProfiles sender).activeLoans ≥ MAX_ACTIVE_LOANS_PER_USER)
    (h7 : s.totalPoolFunds < amount) :
    requestLoan env sender amount duration s = (.error .InsufficientFunds, s) := by
  simp only [requestLoan]
  rw [if_neg h1, if_neg h2, if_neg (by simp [h3]), if_neg h4, if_neg (by simp [h5]),
    if_neg h6, if_pos h7]

/-- Branch of `requestLoan`: all checks pass; the loan book and the caller's
loan list gain the fresh id. -/
theorem requestLoan_ok (env : LendingEnv) (sender amount duration : Nat)
    (s : LendingState) (h1 : ¬(amount < MIN_LOAN_AMOUNT ∨ amount > MAX_LOAN_AMOUNT))
    (h2 : ¬(duration < MIN_LOAN_DURATION ∨ duration > MAX_LOAN_DURATION))
    (h3 : (env.identity sender).isRegistered = true)
    (h4 : ¬(env.identity sender).reputationScore < MIN_REPUTATION_FOR_LOAN)
    (h5 : (s.borrowerProfiles sender).isBanned = false)
    (h6 : ¬(s.borrowerProfiles sender).activeLoans ≥ MAX_ACTIVE_LOANS_PER_USER)
    (h7 : ¬ s.totalPoolFunds < amount) :
    requestLoan env sender amount duration s =
      (.ok (s.loanCounter + 1),
        { s with
          loanCounter := s.loanCounter + 1,
          loans := Function.update s.loans (s.loanCounter + 1)
            { id := s.loanCounter + 1, borrower := sender, amount := amount,
              duration := duration,
              interestRate := calculateInterestRate s sender (env.identity sender).reputationScore,
              startTime := 0, endTime := 0, repaidAmount := 0,
              approved := false, active := false, defaulted := false,
              collateralAmount := 0 },
          userLoans := Function.update s.userLoans sender
            (s.userLoans sender ++ [s.loanCounter + 1]) }) := by
  simp only [requestLoan]
  rw [if_neg h1, if_neg h2, if_neg (by simp [h3]), if_neg h4, if_neg (by simp [h5]),
    if_neg h6, if_neg h7]

/-- C4: `requestLoan` returns the fresh loan id `loanCounter + 1` exactly when
the amount and duration are in range, the caller is registered with
reputation at least `MIN_REPUTATION_FOR_LOAN`, not banned, below the active
loan cap, and the pool can cover the amount; each failing check reverts with
its error, in source order. -/
theorem requestLoan_characterization (env : LendingEnv) (sender amount duration : Nat)
    (s : LendingState) :
    ((requestLoan env sender amount duration s).1 = .ok (s.loanCounter + 1) ↔
      (MIN_LOAN_AMOUNT ≤ amount ∧ amount ≤ MAX_LOAN_AMOUNT ∧
       MIN_LOAN_DURATION ≤ duration ∧ duration ≤ MAX_LOAN_DURATION ∧
       (env.identity sender).isRegistered = true ∧
       MIN_REPUTATION_FOR_LOAN ≤ (env.identity sender).reputationScore ∧
       (s.borrowerProfiles sender).isBanned = false ∧
       (s.borrowerProfiles sender).activeLoans < MAX_ACTIVE_LOANS_PER_USER ∧
       amount ≤ s.totalPoolFunds)) ∧
    ((amount < MIN_LOAN_AMOUNT ∨ MAX_LOAN_AMOUNT < amount ∨
      duration < MIN_LOAN_DURATION ∨ MAX_LOAN_DURATION < duration) →
      (requestLoan env sender amount duration s).1 = .error .InvalidAmount) ∧
    (MIN_LOAN_AMOUNT ≤ amount → amount ≤ MAX_LOAN_AMOUNT →
     MIN_LOAN_DURATION ≤ duration → duration ≤ MAX_LOAN_DURATION →
     (env.identity sender).isRegistered = false →
      (requestLoan env sender amount duration s).1 = .error .NotRegistered) ∧
    (MIN_LOAN_AMOUNT ≤ amount → amount ≤ MAX_LOAN_AMOUNT →
     MIN_LOAN_DURATION ≤ duration → duration ≤ MAX_LOAN_DURATION →
     (env.identity sender).isRegistered = true →
     (env.identity sender).reputationScore < MIN_REPUTATION_FOR_LOAN →
      (requestLoan env sender amount duration s).1 = .error .InsufficientReputation) ∧
    (MIN_LOAN_AMOUNT ≤ amount → amount ≤ MAX_LOAN_AMOUNT →
     MIN_LOAN_DURATION ≤ duration → duration ≤ MAX_LOAN_DURATION →
     (env.identity sender).isRegistered = true →
     MIN_REPUTATION_FOR_LOAN ≤ (env.identity sender).reputationScore →
     ((s.borrowerProfiles sender).isBanned = true ∨
      MAX_ACTIVE_LOANS_PER_USER ≤ (s.borrowerProfiles sender).activeLoans) →
      (requestLoan env sender amount duration s).1 = .error .UnauthorizedAccess) ∧
    (MIN_LOAN_AMOUNT ≤ amount → amount ≤ MAX_LOAN_AMOUNT →
     MIN_LOAN_DURATION ≤ duration → duration ≤ MAX_LOAN_DURATION →
     (env.identity sender).isRegistered = true →
     MIN_REPUTATION_FOR_LOAN ≤ (env.identity sender).reputationScore →
     (s.borrowerProfiles sender).isBanned = false →
     (s.borrowerProfiles sender).activeLoans < MAX_ACTIVE_LOANS_PER_USER →
     s.totalPoolFunds < amount →
      (requestLoan env sender amount duration s).1 = .error .InsufficientFunds) := by
  by_cases h1 : amount < MIN_LOAN_AMOUNT ∨ amount > MAX_LOAN_AMOUNT
  · rw [requestLoan_amount_invalid env sender amount duration s h1]
    refine ⟨iff_of_false (by simp) (by rintro ⟨c1, c2, -⟩; omega), fun _ => rfl, ?_, ?_, ?_, ?_⟩
    · intro ha1 ha2 _ _ _; exact absurd h1 (by omega)
    · intro ha1 ha2 _ _ _ _; exact absurd h1 (by omega)
    · intro ha1 ha2 _ _ _ _ _; exact absurd h1 (by omega)
    · intro ha1 ha2 _ _ _ _ _ _ _; exact absurd h1 (by omega)
  by_cases h2 : duration < MIN_LOAN_DURATION ∨ duration > MAX_LOAN_DURATION
  · rw [requestLoan_duration_invalid env sender amount duration s h1 h2]
    refine ⟨iff_of_false (by simp) (by rintro ⟨-, -, c3, c4, -⟩; omega), fun _ => rfl, ?_, ?_, ?_, ?_⟩
    · intro _ _ hd1 hd2 _; exact absurd h2 (by omega)
    · intro _ _ hd1 hd2 _ _; exact absurd h2 (by omega)
    · intro _ _ hd1 hd2 _ _ _; exact absurd h2 (by omega)
    · intro _ _ hd1 hd2 _ _ _ _ _; exact absurd h2 (by omega)
  by_cases h3 : (env.identity sender).isRegistered = false
  · rw [requestLoan_not_registered env sender amount duration s h1 h2 h3]
    refine ⟨iff_of_false (by simp) (by rintro ⟨-, -, -, -, c5, -⟩; simp [c5] at h3),
      fun h => absurd h (by omega), fun _ _ _ _ _ => rfl, ?_, ?_, ?_⟩
    · intro _ _ _ _ hreg _; simp [hreg] at h3
    · intro _ _ _ _ hreg _ _; simp [hreg] at h3
    · intro _ _ _ _ hreg _ _ _ _; simp [hreg] at h3
  have hreg : (env.identity sender).isRegistered = true := by simpa using h3
  by_cases h4 : (env.identity sender).reputationScore < MIN_REPUTATION_FOR_LOAN
  · rw [requestLoan_low_reputation env sender amount duration s h1 h2 hreg h4]
    refine ⟨iff_of_false (by simp) (by rintro ⟨-, -, -, -, -, c6, -⟩; omega),
      fun h => absurd h (by omega), ?_, fun _ _ _ _ _ _ => rfl, ?_, ?_⟩
    · intro _ _ _ _ hreg'; simp [hreg'] at hreg
    · intro _ _ _ _ _ hrep _; exact absurd h4 (by omega)
    · intro _ _ _ _ _ hrep _ _ _; exact absurd h4 (by omega)
  by_cases h5 : (s.borrowerProfiles sender).isBanned = true
  · rw [requestLoan_banned env sender amount duration s h1 h2 hreg h4 h5]
    refine ⟨iff_of_false (by simp) (by rintro ⟨-, -, -, -, -, -, c7, -⟩; simp [c7] at h5),
      fun h => absurd h (by omega), ?_, ?_, fun _ _ _ _ _ _ _ => rfl, ?_⟩
    · intro _ _ _ _ hreg'; simp [hreg'] at hreg
    · intro _ _ _ _ _ hrep; exact absurd hrep h4
    · intro _ _ _ _ _ _ hban _ _; simp [hban] at h5
  have hban : (s.borrowerProfiles sender).isBanned = false := by simpa using h5
  by_cases h6 : (s.borrowerProfiles sender).activeLoans ≥ MAX_ACTIVE_LOANS_PER_USER
  · rw [requestLoan_cap_reached env sender amount duration s h1 h2 hreg h4 hban h6]
    refine ⟨iff_of_false (by simp) (by rintro ⟨-, -, -, -, -, -, -, c8, -⟩; omega),
      fun h => absurd h (by omega), ?_, ?_, fun _ _ _ _ _ _ _ => rfl, ?_⟩
    · intro _ _ _ _ hreg'; simp [hreg'] at hreg
    · intro _ _ _ _ _ hrep; exact absurd hrep h4
    · intro _ _ _ _ _ _ _ hcap _; exact absurd h6 (by omega)
  by_cases h7 : s.totalPoolFunds < amount
  · rw [requestLoan_pool_insufficient env sender amount duration s h1 h2 hreg h4 hban h6 h7]
    refine ⟨iff_of_false (by simp) (by rintro ⟨-, -, -, -, -, -, -, -, c9⟩; omega),
      fun h => absurd h (by omega), ?_, ?_, ?_, fun _ _ _ _ _ _ _ _ _ => rfl⟩
    · intro _ _ _ _ hreg'; simp [hreg'] at hreg
    · intro _ _ _ _ _ hrep; exact absurd hrep h4
    · intro _ _ _ _ _ _ hub; rcases hub with hb | hc
      · simp [hb] at hban
      · exact absurd hc (by omega)
  rw [requestLoan_ok env sender amount duration s h1 h2 hreg h4 hban h6 h7]
  refine ⟨iff_of_true rfl
      ⟨by omega, by omega, by omega, by omega, hreg, by omega, hban, by omega, by omega⟩,
    fun h => absurd h (by omega), ?_, ?_, ?_, ?_⟩
  · intro _ _ _ _ hreg'; simp [hreg'] at hreg
  · intro _ _ _ _ _ hrep; exact absurd hrep h4
  · intro _ _ _ _ _ _ hub; rcases hub with hb | hc
    · simp [hb] at hban
    · exact absurd hc (by omega)
  · intro _ _ _ _ _ _ _ _ hpool; exact absurd hpool h7

/-- Branch of `approveLoan`: caller is not the owner. -/
theorem approveLoan_not_owner (env : LendingEnv) (now caller loanId : Nat)
    (s : LendingState) (hc : caller ≠ env.owner) :
    approveLoan env now caller loanId s = (.error .NotOwner, s) := by
  simp only [approveLoan]
  rw [if_pos hc]

/-- Branch of `approveLoan`: unknown loan id. -/
theorem approveLoan_not_found (env : LendingEnv) (now caller loanId : Nat)
    (s : LendingState) (hc : ¬ caller ≠ env.owner) (h0 : (s.loans loanId).id = 0) :
    approveLoan env now caller loanId s = (.error .LoanNotFound, s) := by
  simp only [approveLoan]
  rw [if_neg hc, if_pos h0]

/-- Branch of `approveLoan`: loan already approved. -/
theorem approveLoan_already_approved (env : LendingEnv) (now caller loanId : Nat)
    (s : LendingState) (hc : ¬ caller ≠ env.owner) (h0 : ¬(s.loans loanId).id = 0)
    (h1 : (s.loans loanId).approved = true) :
    approveLoan env now caller loanId s = (.error .LoanAlreadyApproved, s) := by
  simp only [approveLoan]
  rw [if_neg hc, if_neg h0, if_pos h1]

/-- Branch of `approveLoan`: pool cannot cover the principal. -/
theorem approveLoan_pool_insufficient (env : LendingEnv) (now caller loanId : Nat)
    (s : LendingState) (hc : ¬ caller ≠ env.owner) (h0 : ¬(s.loans loanId).id = 0)
    (h1 : (s.loans loanId).approved = false)
    (h2 : s.totalPoolFunds < (s.loans loanId).amount) :
    approveLoan env now caller loanId s = (.error .InsufficientFunds, s) := by
  simp only [approveLoan]
  rw [if_neg hc, if_neg h0, if_neg (by simp [h1]), if_pos h2]

/-- Branch of `approveLoan`: all checks pass; the loan goes active and the
tracking variables move by exactly the principal. -/
theorem approveLoan_ok (env : LendingEnv) (now caller loanId : Nat)
    (s : LendingState) (hc : ¬ caller ≠ env.owner) (h0 : ¬(s.loans loanId).id = 0)
    (h1 : (s.loans loanId).approved = false)
    (h2 : ¬ s.totalPoolFunds < (s.loans loanId).amount) :
    approveLoan env now caller loanId s =
      (.ok (),
        { s with
          loans := Function.update s.loans loanId
            { s.loans loanId with
              approved := true, active := true,
              startTime := now, endTime := now + (s.loans loanId).duration },
          totalPoolFunds := s.totalPoolFunds - (s.loans loanId).amount,
          totalActiveLoans := s.totalActiveLoans + (s.loans loanId).amount,
          borrowerProfiles := Function.update s.borrowerProfiles (s.loans loanId).borrower
            { s.borrowerProfiles (s.loans loanId).borrower with
              activeLoans := (s.borrowerProfiles (s.loans loanId).borrower).activeLoans + 1,
              totalBorrowed :=
                (s.borrowerProfiles (s.loans loanId).borrower).totalBorrowed + (s.loans loanId).amount,
              lastLoanTime := now } }) := by
  simp only [approveLoan]
  rw [if_neg hc, if_neg h0, if_neg (by simp [h1]), if_neg h2]

/-- Branch of `repayLoan`: unknown loan id. -/
theorem repayLoan_not_found (now sender loanId amount : Nat)
    (s : LendingState) (h0 : (s.loans loanId).id = 0) :
    repayLoan now sender loanId amount s = (.error .LoanNotFound, s) := by
  simp only [repayLoan]
  rw [if_pos h0]

/-- Branch of `repayLoan`: loan not active. -/
theorem repayLoan_not_active (now sender loanId amount : Nat)
    (s : LendingState) (h0 : ¬(s.loans loanId).id = 0)
    (ha : (s.loans loanId).active = false) :
    repayLoan now sender loanId amount s = (.error .LoanNotApproved, s) := by
  simp only [repayLoan]
  rw [if_neg h0, if_pos (by simp [ha])]

/-- Branch of `repayLoan`: caller is not the borrower. -/
theorem repayLoan_wrong_sender (now sender loanId amount : Nat)
    (s : LendingState) (h0 : ¬(s.loans loanId).id = 0)
    (ha : (s.loans loanId).active = true)
    (hb : (s.loans loanId).borrower ≠ sender) :
    repayLoan now sender loanId amount s = (.error .UnauthorizedAccess, s) := by
  simp only [repayLoan]
  rw [if_neg h0, if_neg (by simp [ha]), if_pos hb]

/-- Branch of `repayLoan`: zero repayment amount. -/
theorem repayLoan_zero_amount (now sender loanId amount : Nat)
    (s : LendingState) (h0 : ¬(s.loans loanId).id = 0)
    (ha : (s.loans loanId).active = true)
    (hb : ¬(s.loans loanId).borrower ≠ sender) (hz : amount = 0) :
    repayLoan now sender loanId amount s = (.error .InvalidAmount, s) := by
  simp only [repayLoan]
  rw [if_neg h0, if_neg (by simp [ha]), if_neg hb, if_pos hz]

/-- Branch of `repayLoan`: partial repayment; only `repaidAmount` and the
pool move. -/
theorem repayLoan_partial_ok (now sender loanId amount : Nat)
    (s : LendingState) (h0 : ¬(s.loans loanId).id = 0)
    (ha : (s.loans loanId).active = true)
    (hb : ¬(s.loans loanId).borrower ≠ sender) (hz : ¬ amount = 0)
    (hfull : ¬ (s.loans loanId).repaidAmount + repaymentAmountOf now s loanId amount ≥
      calculateTotalDue now s loanId) :
    repayLoan now sender loanId amount s =
      (.ok (),
        { s with
          loans := Function.update s.loans loanId
            { s.loans loanId with
              repaidAmount := (s.loans loanId).repaidAmount + repaymentAmountOf now s loanId amount },
          totalPoolFunds := s.totalPoolFunds + repaymentAmountOf now s loanId amount }) := by
  simp only [repaymentAmountOf] at hfull
  simp only [repayLoan, repaymentAmountOf]
  rw [if_neg h0, if_neg (by simp [ha]), if_neg hb, if_neg hz, if_neg hfull]

/-- Branch of `repayLoan`: the payment clears the debt and the loan held no
collateral; the loan deactivates and the borrower totals update. -/
theorem repayLoan_ok_full_nocoll (now sender loanId amount : Nat)
    (s : LendingState) (h0 : ¬(s.loans loanId).id = 0)
    (ha : (s.loans loanId).active = true)
    (hb : ¬(s.loans loanId).borrower ≠ sender) (hz : ¬ amount = 0)
    (hfull : (s.loans loanId).repaidAmount + repaymentAmountOf now s loanId amount ≥
      calculateTotalDue now s loanId)
    (hcol : ¬ (s.loans loanId).collateralAmount > 0) :
    repayLoan now sender loanId amount s =
      (.ok (),
        { s with
          loans := Function.update
            (Function.update s.loans loanId
              { s.loans loanId with
                repaidAmount := (s.loans loanId).repaidAmount + repaymentAmountOf now s loanId amount })
            loanId
            { s.loans loanId with
              repaidAmount := (s.loans loanId).repaidAmount + repaymentAmountOf now s loanId amount,
              active := false },
          totalPoolFunds := s.totalPoolFunds + repaymentAmountOf now s loanId amount,
          totalActiveLoans := s.totalActiveLoans - (s.loans loanId).amount,
          borrowerProfiles := Function.update s.borrowerProfiles (s.loans loanId).borrower
            { s.borrowerProfiles (s.loans loanId).borrower with
              activeLoans := (s.borrowerProfiles (s.loans loanId).borrower).activeLoans - 1,
              totalRepaid := (s.borrowerProfiles (s.loans loanId).borrower).totalRepaid +
                ((s.loans loanId).repaidAmount + repaymentAmountOf now s loanId amount) } }) := by
  simp only [repaymentAmountOf] at hfull
  simp only [repayLoan, repaymentAmountOf]
  rw [if_neg h0, if_neg (by simp [ha]), if_neg hb, if_neg hz, if_pos hfull, if_neg hcol]

/-- Branch of `repayLoan`: the payment clears the debt and collateral is
returned to the borrower's withdrawable balance. -/
theorem repayLoan_ok_full_coll (now sender loanId amount : Nat)
    (s : LendingState) (h0 : ¬(s.loans loanId).id = 0)
    (ha : (s.loans loanId).active = true)
    (hb : ¬(s.loans loanId).borrower ≠ sender) (hz : ¬ amount = 0)
    (hfull : (s.loans loanId).repaidAmount + repaymentAmountOf now s loanId amount ≥
      calculateTotalDue now s loanId)
    (hcol : (s.loans loanId).collateralAmount > 0) :
    repayLoan now sender loanId amount s =
      (.ok (),
        { s with
          loans := Function.update
            (Function.update
              (Function.update s.loans loanId
                { s.loans loanId with
                  repaidAmount := (s.loans loanId).repaidAmount + repaymentAmountOf now s loanId amount })
              loanId
              { s.loans loanId with
                repaidAmount := (s.loans loanId).repaidAmount + repaymentAmountOf now s loanId amount,
                active := false })
            loanId
            { s.loans loanId with
              repaidAmount := (s.loans loanId).repaidAmount + repaymentAmountOf now s loanId amount,
              active := false,
              collateralAmount := 0 },
          totalPoolFunds := s.totalPoolFunds + repaymentAmountOf now s loanId amount,
          totalActiveLoans := s.totalActiveLoans - (s.loans loanId).amount,
          borrowerProfiles := Function.update s.borrowerProfiles (s.loans loanId).borrower
            { s.borrowerProfiles (s.loans loanId).borrower with
              activeLoans := (s.borrowerProfiles (s.loans loanId).borrower).activeLoans - 1,
              totalRepaid := (s.borrowerProfiles (s.loans loanId).borrower).totalRepaid +
                ((s.loans loanId).repaidAmount + repaymentAmountOf now s loanId amount) },
          collateralBalances := Function.update s.collateralBalances (s.loans loanId).borrower
            (s.collateralBalances (s.loans loanId).borrower + (s.loans loanId).collateralAmount) }) := by
  simp only [repaymentAmountOf] at hfull
  simp only [repayLoan, repaymentAmountOf]
  rw [if_neg h0, if_neg (by simp [ha]), if_neg hb, if_neg hz, if_pos hfull, if_pos hcol]

/-- Branch of `depositCollateral`: unknown loan id. -/
theorem depositCollateral_not_found (sender loanId amount : Nat)
    (s : LendingState) (h0 : (s.loans loanId).id = 0) :
    depositCollateral sender loanId amount s = (.error .LoanNotFound, s) := by
  simp only [depositCollateral]
  rw [if_pos h0]

/-- Branch of `depositCollateral`: caller is not the borrower. -/
theorem depositCollateral_wrong_sender (sender loanId amount : Nat)
    (s : LendingState) (h0 : ¬(s.loans loanId).id = 0)
    (hb : (s.loans loanId).borrower ≠ sender) :
    depositCollateral sender loanId amount s = (.error .UnauthorizedAccess, s) := by
  simp only [depositCollateral]
  rw [if_neg h0, if_pos hb]

/-- Branch of `depositCollateral`: loan not active — collateral can never be
deposited before `approveLoan` has activated the loan. -/
theorem depositCollateral_not_active (sender loanId amount : Nat)
    (s : LendingState) (h0 : ¬(s.loans loanId).id = 0)
    (hb : ¬(s.loans loanId).borrower ≠ sender)
    (ha : (s.loans loanId).active = false) :
    depositCollateral sender loanId amount s = (.error .LoanNotApproved, s) := by
  simp only [depositCollateral]
  rw [if_neg h0, if_neg hb, if_pos (by simp [ha])]

/-- Branch of `depositCollateral`: all checks pass. -/
theorem depositCollateral_ok (sender loanId amount : Nat)
    (s : LendingState) (h0 : ¬(s.loans loanId).id = 0)
    (hb : ¬(s.loans loanId).borrower ≠ sender)
    (ha : (s.loans loanId).active = true) :
    depositCollateral sender loanId amount s =
      (.ok (),
        { s with loans := (Function.update s.loans loanId
            { s.loans loanId with
              collateralAmount := (s.loans loanId).collateralAmount + amount }) }) := by
  simp only [depositCollateral]
  rw [if_neg h0, if_neg hb, if_neg (by simp [ha])]

/-- Branch of `markAsDefaulted`: caller is not the owner. -/
theorem markAsDefaulted_not_owner (env : LendingEnv) (now caller loanId : Nat)
    (s : LendingState) (hc : caller ≠ env.owner) :
    markAsDefaulted env now caller loanId s = (.error .NotOwner, s) := by
  simp only [markAsDefaulted]
  rw [if_pos hc]

/-- Branch of `markAsDefaulted`: unknown loan id. -/
theorem markAsDefaulted_not_found (env : LendingEnv) (now caller loanId : Nat)
    (s : LendingState) (hc : ¬ caller ≠ env.owner) (h0 : (s.loans loanId).id = 0) :
    markAsDefaulted env now caller loanId s = (.error .LoanNotFound, s) := by
  simp only [markAsDefaulted]
  rw [if_neg hc, if_pos h0]

/-- Branch of `markAsDefaulted`: loan not active. -/
theorem markAsDefaulted_not_active (env : LendingEnv) (now caller loanId : Nat)
    (s : LendingState) (hc : ¬ caller ≠ env.owner) (h0 : ¬(s.loans loanId).id = 0)
    (ha : (s.loans loanId).active = false) :
    markAsDefaulted env now caller loanId s = (.error .LoanNotApproved, s) := by
  simp only [markAsDefaulted]
  rw [if_neg hc, if_neg h0, if_pos (by simp [ha])]

/-- Branch of `markAsDefaulted`: the loan's end time has not passed. -/
theorem markAsDefaulted_not_expired (env : LendingEnv) (now caller loanId : Nat)
    (s : LendingState) (hc : ¬ caller ≠ env.owner) (h0 : ¬(s.loans loanId).id = 0)
    (ha : (s.loans loanId).active = true) (ht : now ≤ (s.loans loanId).endTime) :
    markAsDefaulted env now caller loanId s = (.error .LoanExpired, s) := by
  simp only [markAsDefaulted]
  rw [if_neg hc, if_neg h0, if_neg (by simp [ha]), if_pos ht]

/-- Branch of `markAsDefaulted`: success without collateral to seize. -/
theorem markAsDefaulted_ok_nocoll (env : LendingEnv) (now caller loanId : Nat)
    (s : LendingState) (hc : ¬ caller ≠ env.owner) (h0 : ¬(s.loans loanId).id = 0)
    (ha : (s.loans loanId).active = true) (ht : ¬ now ≤ (s.loans loanId).endTime)
    (hcol : ¬ (s.loans loanId).collateralAmount > 0) :
    markAsDefaulted env now caller loanId s =
      (.ok (),
        { s with
          loans := Function.update s.loans loanId
            { s.loans loanId with defaulted := true, active := false },
          borrowerProfiles := Function.update s.borrowerProfiles (s.loans loanId).borrower
            { s.borrowerProfiles (s.loans loanId).borrower with
              activeLoans := (s.borrowerProfiles (s.loans loanId).borrower).activeLoans - 1,
              defaultedLoans := (s.borrowerProfiles (s.loans loanId).borrower).defaultedLoans + 1 },
          totalActiveLoans := s.totalActiveLoans - (s.loans loanId).amount }) := by
  simp only [markAsDefaulted]
  rw [if_neg hc, if_neg h0, if_neg (by simp [ha]), if_neg ht, if_neg hcol]

/-- Branch of `markAsDefaulted`: success, seizing the collateral into the
pool. -/
theorem markAsDefaulted_ok_coll (env : LendingEnv) (now caller loanId : Nat)
    (s : LendingState) (hc : ¬ caller ≠ env.owner) (h0 : ¬(s.loans loanId).id = 0)
    (ha : (s.loans loanId).active = true) (ht : ¬ now ≤ (s.loans loanId).endTime)
    (hcol : (s.loans loanId).collateralAmount > 0) :
    markAsDefaulted env now caller loanId s =
      (.ok (),
        { s with
          loans := Function.update
            (Function.update s.loans loanId
              { s.loans loanId with defaulted := true, active := false })
            loanId
            { s.loans loanId with
              defaulted := true, active := false,
              collateralAmount := 0 },
          borrowerProfiles := Function.update s.borrowerProfiles (s.loans loanId).borrower
            { s.borrowerProfiles (s.loans loanId).borrower with
              activeLoans := (s.borrowerProfiles (s.loans loanId).borrower).activeLoans - 1,
              defaultedLoans := (s.borrowerProfiles (s.loans loanId).borrower).defaultedLoans + 1 },
          totalPoolFunds := s.totalPoolFunds + (s.loans loanId).collateralAmount,
          totalActiveLoans := s.totalActiveLoans - (s.loans loanId).amount }) := by
  simp only [markAsDefaulted]
  rw [if_neg hc, if_neg h0, if_neg (by simp [ha]), if_neg ht, if_pos hcol]

/-- Branch of `fundPool`: zero amount. -/
theorem fundPool_zero (amount : Nat) (s : LendingState) (hz : amount = 0) :
    fundPool amount s = (.error .InvalidAmount, s) := by
  simp only [fundPool]
  rw [if_pos hz]

/-- Branch of `fundPool`: success. -/
theorem fundPool_ok (amount : Nat) (s : LendingState) (hz : ¬ amount = 0) :
    fundPool amount s = (.ok (), { s with totalPoolFunds := s.totalPoolFunds + amount }) := by
  simp only [fundPool]
  rw [if_neg hz]

/-- Branch of `withdrawFromPool`: caller is not the owner. -/
theorem withdrawFromPool_not_owner (env : LendingEnv) (caller amount : Nat)
    (s : LendingState) (hc : caller ≠ env.owner) :
    withdrawFromPool env caller amount s = (.error .NotOwner, s) := by
  simp only [withdrawFromPool]
  rw [if_pos hc]

/-- Branch of `withdrawFromPool`: more than the pool holds. -/
theorem withdrawFromPool_insufficient (env : LendingEnv) (caller amount : Nat)
    (s : LendingState) (hc : ¬ caller ≠ env.owner) (h : amount > s.totalPoolFunds) :
    withdrawFromPool env caller amount s = (.error .InsufficientFunds, s) := by
  simp only [withdrawFromPool]
  rw [if_neg hc, if_pos h]

/-- Branch of `withdrawFromPool`: success. -/
theorem withdrawFromPool_ok (env : LendingEnv) (caller amount : Nat)
    (s : LendingState) (hc : ¬ caller ≠ env.owner) (h : ¬ amount > s.totalPoolFunds) :
    withdrawFromPool env caller amount s =
      (.ok (), { s with totalPoolFunds := s.totalPoolFunds - amount }) := by
  simp only [withdrawFromPool]
  rw [if_neg hc, if_neg h]

/-- Branch of `setBorrowerBan`: caller is not the owner. -/
theorem setBorrowerBan_not_owner (env : LendingEnv) (caller borrower : Nat) (banned : Bool)
    (s : LendingState) (hc : caller ≠ env.owner) :
    setBorrowerBan env caller borrower banned s = (.error .NotOwner, s) := by
  simp only [setBorrowerBan]
  rw [if_pos hc]

/-- Branch of `setBorrowerBan`: success. -/
theorem setBorrowerBan_ok (env : LendingEnv) (caller borrower : Nat) (banned : Bool)
    (s : LendingState) (hc : ¬ caller ≠ env.owner) :
    setBorrowerBan env caller borrower banned s =
      (.ok (),
        { s with borrowerProfiles := (Function.update s.borrowerProfiles borrower
            { s.borrowerProfiles borrower with isBanned := banned }) }) := by
  simp only [setBorrowerBan]
  rw [if_neg hc]

/-- Every reverting path of `requestLoan` exits before any storage write. -/
theorem requestLoan_frame (env : LendingEnv) (sender amount duration : Nat) (s : LendingState)
    (h : isErr (requestLoan env sender amount duration s).1 = true) :
    (requestLoan env sender amount duration s).2 = s := by
  by_cases h1 : amount < MIN_LOAN_AMOUNT ∨ amount > MAX_LOAN_AMOUNT
  · rw [requestLoan_amount_invalid env sender amount duration s h1]
  by_cases h2 : duration < MIN_LOAN_DURATION ∨ duration > MAX_LOAN_DURATION
  · rw [requestLoan_duration_invalid env sender amount duration s h1 h2]
  by_cases h3 : (env.identity sender).isRegistered = false
  · rw [requestLoan_not_registered env sender amount duration s h1 h2 h3]
  have hreg : (env.identity sender).isRegistered = true := by simpa using h3
  by_cases h4 : (env.identity sender).reputationScore < MIN_REPUTATION_FOR_LOAN
  · rw [requestLoan_low_reputation env sender amount duration s h1 h2 hreg h4]
  by_cases h5 : (s.borrowerProfiles sender).isBanned = true
  · rw [requestLoan_banned env sender amount duration s h1 h2 hreg h4 h5]
  have hban : (s.borrowerProfiles sender).isBanned = false := by simpa using h5
  by_cases h6 : (s.borrowerProfiles sender).activeLoans ≥ MAX_ACTIVE_LOANS_PER_USER
  · rw [requestLoan_cap_reached env sender amount duration s h1 h2 hreg h4 hban h6]
  by_cases h7 : s.totalPoolFunds < amount
  · rw [requestLoan_pool_insufficient env sender amount duration s h1 h2 hreg h4 hban h6 h7]
  rw [requestLoan_ok env sender amount duration s h1 h2 hreg h4 hban h6 h7] at h
  simp [isErr] at h

/-- Every reverting path of `approveLoan` exits before any storage write. -/
theorem approveLoan_frame (env : LendingEnv) (now caller loanId : Nat) (s : LendingState)
    (h : isErr (approveLoan env now caller loanId s).1 = true) :
    (approveLoan env now caller loanId s).2 = s := by
  by_cases hc : caller ≠ env.owner
  · rw [approveLoan_not_owner env now caller loanId s hc]
  by_cases h0 : (s.loans loanId).id = 0
  · rw [approveLoan_not_found env now caller loanId s hc h0]
  by_cases h1 : (s.loans loanId).approved = true
  · rw [approveLoan_already_approved env now caller loanId s hc h0 h1]
  have h1' : (s.loans loanId).approved = false := by simpa using h1
  by_cases h2 : s.totalPoolFunds < (s.loans loanId).amount
  · rw [approveLoan_pool_insufficient env now caller loanId s hc h0 h1' h2]
  rw [approveLoan_ok env now caller loanId s hc h0 h1' h2] at h
  simp [isErr] at h

/-- Every reverting path of `repayLoan` exits before any storage write. -/
theorem repayLoan_frame (now sender loanId amount : Nat) (s : LendingState)
    (h : isErr (repayLoan now sender loanId amount s).1 = true) :
    (repayLoan now sender loanId amount s).2 = s := by
  by_cases h0 : (s.loans loanId).id = 0
  · rw [repayLoan_not_found now sender loanId amount s h0]
  by_cases ha : (s.loans loanId).active = false
  · rw [repayLoan_not_active now sender loanId amount s h0 ha]
  have ha' : (s.loans loanId).active = true := by simpa using ha
  by_cases hbb : (s.loans loanId).borrower ≠ sender
  · rw [repayLoan_wrong_sender now sender loanId amount s h0 ha' hbb]
  by_cases hz : amount = 0
  · rw [repayLoan_zero_amount now sender loanId amount s h0 ha' hbb hz]
  by_cases hfull : (s.loans loanId).repaidAmount + repaymentAmountOf now s loanId amount ≥
      calculateTotalDue now s loanId
  · by_cases hcol : (s.loans loanId).collateralAmount > 0
    · rw [repayLoan_ok_full_coll now sender loanId amount s h0 ha' hbb hz hfull hcol] at h
      simp [isErr] at h
    · rw [repayLoan_ok_full_nocoll now sender loanId amount s h0 ha' hbb hz hfull hcol] at h
      simp [isErr] at h
  · rw [repayLoan_partial_ok now sender loanId amount s h0 ha' hbb hz hfull] at h
    simp [isErr] at h

/-- Every reverting path of `depositCollateral` exits before any storage
write. -/
theorem depositCollateral_frame (sender loanId amount : Nat) (s : LendingState)
    (h : isErr (depositCollateral sender loanId amount s).1 = true) :
    (depositCollateral sender loanId amount s).2 = s := by
  by_cases h0 : (s.loans loanId).id = 0
  · rw [depositCollateral_not_found sender loanId amount s h0]
  by_cases hbb : (s.loans loanId).borrower ≠ sender
  · rw [depositCollateral_wrong_sender sender loanId amount s h0 hbb]
  by_cases ha : (s.loans loanId).active = false
  · rw [depositCollateral_not_active sender loanId amount s h0 hbb ha]
  have ha' : (s.loans loanId).active = true := by simpa using ha
  rw [depositCollateral_ok sender loanId amount s h0 hbb ha'] at h
  simp [isErr] at h

/-- Every reverting path of `markAsDefaulted` exits before any storage
write. -/
theorem markAsDefaulted_frame (env : LendingEnv) (now caller loanId : Nat) (s : LendingState)
    (h : isErr (markAsDefaulted env now caller loanId s).1 = true) :
    (markAsDefaulted env now caller loanId s).2 = s := by
  by_cases hc : caller ≠ env.owner
  · rw [markAsDefaulted_not_owner env now caller loanId s hc]
  by_cases h0 : (s.loans loanId).id = 0
  · rw [markAsDefaulted_not_found env now caller loanId s hc h0]
  by_cases ha : (s.loans loanId).active = false
  · rw [markAsDefaulted_not_active env now caller loanId s hc h0 ha]
  have ha' : (s.loans loanId).active = true := by simpa using ha
  by_cases ht : now ≤ (s.loans loanId).endTime
  · rw [markAsDefaulted_not_expired env now caller loanId s hc h0 ha' ht]
  by_cases hcol : (s.loans loanId).collateralAmount > 0
  · rw [markAsDefaulted_ok_coll env now caller loanId s hc h0 ha' ht hcol] at h
    simp [isErr] at h
  · rw [markAsDefaulted_ok_nocoll env now caller loanId s hc h0 ha' ht hcol] at h
    simp [isErr] at h

/-- Every reverting path of `fundPool` exits before any storage write. -/
theorem fundPool_frame (amount : Nat) (s : LendingState)
    (h : isErr (fundPool amount s).1 = true) :
    (fundPool amount s).2 = s := by
  by_cases hz : amount = 0
  · rw [fundPool_zero amount s hz]
  rw [fundPool_ok amount s hz] at h
  simp [isErr] at h

/-- Every reverting path of `withdrawFromPool` exits before any storage
write. -/
theorem withdrawFromPool_frame (env : LendingEnv) (caller amount : Nat) (s : LendingState)
    (h : isErr (withdrawFromPool env caller amount s).1 = true) :
    (withdrawFromPool env caller amount s).2 = s := by
  by_cases hc : caller ≠ env.owner
  · rw [withdrawFromPool_not_owner env caller amount s hc]
  by_cases hp : amount > s.totalPoolFunds
  · rw [withdrawFromPool_insufficient env caller amount s hc hp]
  rw [withdrawFromPool_ok env caller amount s hc hp] at h
  simp [isErr] at h

/-- C8: every state-modifying entry point of `UnbankedLending` is atomic on
failure — when `requestLoan`, `approveLoan`, `repayLoan`,
`depositCollateral`, `markAsDefaulted`, `fundPool` or `withdrawFromPool`
reverts through one of its checks, the storage after the call (the state
component carried to the revert point) equals the storage before it. -/
theorem lending_ops_atomic_on_error :
    (∀ (env : LendingEnv) (sender amount duration : Nat) (s : LendingState),
      isErr (requestLoan env sender amount duration s).1 = true →
        (requestLoan env sender amount duration s).2 = s) ∧
    (∀ (env : LendingEnv) (now caller loanId : Nat) (s : LendingState),
      isErr (approveLoan env now caller loanId s).1 = true →
        (approveLoan env now caller loanId s).2 = s) ∧
    (∀ (now sender loanId amount : Nat) (s : LendingState),
      isErr (repayLoan now sender loanId amount s).1 = true →
        (repayLoan now sender loanId amount s).2 = s) ∧
    (∀ (sender loanId amount : Nat) (s : LendingState),
      isErr (depositCollateral sender loanId amount s).1 = true →
        (depositCollateral sender loanId amount s).2 = s) ∧
    (∀ (env : LendingEnv) (now caller loanId : Nat) (s : LendingState),
      isErr (markAsDefaulted env now caller loanId s).1 = true →
        (markAsDefaulted env now caller loanId s).2 = s) ∧
    (∀ (amount : Nat) (s : LendingState),
      isErr (fundPool amount s).1 = true → (fundPool amount s).2 = s) ∧
    (∀ (env : LendingEnv) (caller amount : Nat) (s : LendingState),
      isErr (withdrawFromPool env caller amount s).1 = true →
        (withdrawFromPool env caller amount s).2 = s) :=
  ⟨requestLoan_frame, approveLoan_frame, repayLoan_frame, depositCollateral_frame,
    markAsDefaulted_frame, fundPool_frame, withdrawFromPool_frame⟩

/-- Witness for C8 at concrete reverting calls on the initial storage. -/
theorem lending_ops_atomic_on_error_witness :
    (isErr (requestLoan demoEnv 5 0 0 initialLendingState).1 = true ∧
      (requestLoan demoEnv 5 0 0 initialLendingState).2 = initialLendingState) ∧
    (isErr (approveLoan demoEnv 0 0 1 initialLendingState).1 = true ∧
      (approveLoan demoEnv 0 0 1 initialLendingState).2 = initialLendingState) ∧
    (isErr (repayLoan 0 5 1 7 initialLendingState).1 = true ∧
      (repayLoan 0 5 1 7 initialLendingState).2 = initialLendingState) ∧
    (isErr (depositCollateral 5 1 7 initialLendingState).1 = true ∧
      (depositCollateral 5 1 7 initialLendingState).2 = initialLendingState) ∧
    (isErr (markAsDefaulted demoEnv 0 0 1 initialLendingState).1 = true ∧
      (markAsDefaulted demoEnv 0 0 1 initialLendingState).2 = initialLendingState) ∧
    (isErr (fundPool 0 initialLendingState).1 = true ∧
      (fundPool 0 initialLendingState).2 = initialLendingState) ∧
    (isErr (withdrawFromPool demoEnv 0 7 initialLendingState).1 = true ∧
      (withdrawFromPool demoEnv 0 7 initialLendingState).2 = initialLendingState) :=
  ⟨⟨rfl, lending_ops_atomic_on_error.1 demoEnv 5 0 0 initialLendingState rfl⟩,
    ⟨rfl, lending_ops_atomic_on_error.2.1 demoEnv 0 0 1 initialLendingState rfl⟩,
    ⟨rfl, lending_ops_atomic_on_error.2.2.1 0 5 1 7 initialLendingState rfl⟩,
    ⟨rfl, lending_ops_atomic_on_error.2.2.2.1 5 1 7 initialLendingState rfl⟩,
    ⟨rfl, lending_ops_atomic_on_error.2.2.2.2.1 demoEnv 0 0 1 initialLendingState rfl⟩,
    ⟨rfl, lending_ops_atomic_on_error.2.2.2.2.2.1 0 initialLendingState rfl⟩,
    ⟨rfl, lending_ops_atomic_on_error.2.2.2.2.2.2 demoEnv 0 7 initialLendingState rfl⟩⟩

/-- Outcome inversion for `requestLoan`: either a revert leaving the storage
unchanged, or the success shape — a fresh inactive, unapproved loan at key
`loanCounter + 1`. -/
theorem requestLoan_split (env : LendingEnv) (sender amount duration : Nat) (s : LendingState) :
    (∃ e, requestLoan env sender amount duration s = (.error e, s)) ∨
    requestLoan env sender amount duration s =
      (.ok (s.loanCounter + 1),
        { s with
          loanCounter := s.loanCounter + 1,
          loans := Function.update s.loans (s.loanCounter + 1)
            { id := s.loanCounter + 1, borrower := sender, amount := amount,
              duration := duration,
              interestRate := calculateInterestRate s sender (env.identity sender).reputationScore,
              startTime := 0, endTime := 0, repaidAmount := 0,
              approved := false, active := false, defaulted := false,
              collateralAmount := 0 },
          userLoans := Function.update s.userLoans sender
            (s.userLoans sender ++ [s.loanCounter + 1]) }) := by
  by_cases h1 : amount < MIN_LOAN_AMOUNT ∨ amount > MAX_LOAN_AMOUNT
  · exact .inl ⟨_, requestLoan_amount_invalid env sender amount duration s h1⟩
  by_cases h2 : duration < MIN_LOAN_DURATION ∨ duration > MAX_LOAN_DURATION
  · exact .inl ⟨_, requestLoan_duration_invalid env sender amount duration s h1 h2⟩
  by_cases h3 : (env.identity sender).isRegistered = false
  · exact .inl ⟨_, requestLoan_not_registered env sender amount duration s h1 h2 h3⟩
  have hreg : (env.identity sender).isRegistered = true := by simpa using h3
  by_cases h4 : (env.identity sender).reputationScore < MIN_REPUTATION_FOR_LOAN
  · exact .inl ⟨_, requestLoan_low_reputation env sender amount duration s h1 h2 hreg h4⟩
  by_cases h5 : (s.borrowerProfiles sender).isBanned = true
  · exact .inl ⟨_, requestLoan_banned env sender amount duration s h1 h2 hreg h4 h5⟩
  have hban : (s.borrowerProfiles sender).isBanned = false := by simpa using h5
  by_cases h6 : (s.borrowerProfiles sender).activeLoans ≥ MAX_ACTIVE_LOANS_PER_USER
  · exact .inl ⟨_, requestLoan_cap_reached env sender amount duration s h1 h2 hreg h4 hban h6⟩
  by_cases h7 : s.totalPoolFunds < amount
  · exact .inl ⟨_, requestLoan_pool_insufficient env sender amount duration s h1 h2 hreg h4 hban h6 h7⟩
  exact .inr (requestLoan_ok env sender amount duration s h1 h2 hreg h4 hban h6 h7)

/-- Outcome inversion for `approveLoan`. -/
theorem approveLoan_split (env : LendingEnv) (now caller loanId : Nat) (s : LendingState) :
    (∃ e, approveLoan env now caller loanId s = (.error e, s)) ∨
    (¬(s.loans loanId).id = 0 ∧ (s.loans loanId).approved = false ∧
      approveLoan env now caller loanId s =
        (.ok (),
          { s with
            loans := Function.update s.loans loanId
              { s.loans loanId with
                approved := true, active := true,
                startTime := now, endTime := now + (s.loans loanId).duration },
            totalPoolFunds := s.totalPoolFunds - (s.loans loanId).amount,
            totalActiveLoans := s.totalActiveLoans + (s.loans loanId).amount,
            borrowerProfiles := Function.update s.borrowerProfiles (s.loans loanId).borrower
              { s.borrowerProfiles (s.loans loanId).borrower with
                activeLoans := (s.borrowerProfiles (s.loans loanId).borrower).activeLoans + 1,
                totalBorrowed :=
                  (s.borrowerProfiles (s.loans loanId).borrower).totalBorrowed + (s.loans loanId).amount,
                lastLoanTime := now } })) := by
  by_cases hc : caller ≠ env.owner
  · exact .inl ⟨_, approveLoan_not_owner env now caller loanId s hc⟩
  by_cases h0 : (s.loans loanId).id = 0
  · exact .inl ⟨_, approveLoan_not_found env now caller loanId s hc h0⟩
  by_cases h1 : (s.loans loanId).approved = true
  · exact .inl ⟨_, approveLoan_already_approved env now caller loanId s hc h0 h1⟩
  have h1' : (s.loans loanId).approved = false := by simpa using h1
  by_cases h2 : s.totalPoolFunds < (s.loans loanId).amount
  · exact .inl ⟨_, approveLoan_pool_insufficient env now caller loanId s hc h0 h1' h2⟩
  exact .inr ⟨h0, h1', approveLoan_ok env now caller loanId s hc h0 h1' h2⟩

/-- Outcome inversion for `repayLoan`: a revert, or one of the three
success shapes (partial; full without collateral; full with collateral). -/
theorem repayLoan_split (now sender loanId amount : Nat) (s : LendingState) :
    (∃ e, repayLoan now sender loanId amount s = (.error e, s)) ∨
    (¬(s.loans loanId).id = 0 ∧ (s.loans loanId).active = true ∧
      (repayLoan now sender loanId amount s =
        (.ok (),
          { s with
            loans := Function.update s.loans loanId
              { s.loans loanId with
                repaidAmount := (s.loans loanId).repaidAmount + repaymentAmountOf now s loanId amount },
            totalPoolFunds := s.totalPoolFunds + repaymentAmountOf now s loanId amount }) ∨
       repayLoan now sender loanId amount s =
        (.ok (),
          { s with
            loans := Function.update
              (Function.update s.loans loanId
                { s.loans loanId with
                  repaidAmount := (s.loans loanId).repaidAmount + repaymentAmountOf now s loanId amount })
              loanId
              { s.loans loanId with
                repaidAmount := (s.loans loanId).repaidAmount + repaymentAmountOf now s loanId amount,
                active := false },
            totalPoolFunds := s.totalPoolFunds + repaymentAmountOf now s loanId amount,
            totalActiveLoans := s.totalActiveLoans - (s.loans loanId).amount,
            borrowerProfiles := Function.update s.borrowerProfiles (s.loans loanId).borrower
              { s.borrowerProfiles (s.loans loanId).borrower with
                activeLoans := (s.borrowerProfiles (s.loans loanId).borrower).activeLoans - 1,
                totalRepaid := (s.borrowerProfiles (s.loans loanId).borrower).totalRepaid +
                  ((s.loans loanId).repaidAmount + repaymentAmountOf now s loanId amount) } }) ∨
       repayLoan now sender loanId amount s =
        (.ok (),
          { s with
            loans := Function.update
              (Function.update
                (Function.update s.loans loanId
                  { s.loans loanId with
                    repaidAmount := (s.loans loanId).repaidAmount + repaymentAmountOf now s loanId amount })
                loanId
                { s.loans loanId with
                  repaidAmount := (s.loans loanId).repaidAmount + repaymentAmountOf now s loanId amount,
                  active := false })
              loanId
              { s.loans loanId with
                repaidAmount := (s.loans loanId).repaidAmount + repaymentAmountOf now s loanId amount,
                active := false,
                collateralAmount := 0 },
            totalPoolFunds := s.totalPoolFunds + repaymentAmountOf now s loanId amount,
            totalActiveLoans := s.totalActiveLoans - (s.loans loanId).amount,
            borrowerProfiles := Function.update s.borrowerProfiles (s.loans loanId).borrower
              { s.borrowerProfiles (s.loans loanId).borrower with
                activeLoans := (s.borrowerProfiles (s.loans loanId).borrower).activeLoans - 1,
                totalRepaid := (s.borrowerProfiles (s.loans loanId).borrower).totalRepaid +
                  ((s.loans loanId).repaidAmount + repaymentAmountOf now s loanId amount) },
            collateralBalances := Function.update s.collateralBalances (s.loans loanId).borrower
              (s.collateralBalances (s.loans loanId).borrower + (s.loans loanId).collateralAmount) }))) := by
  by_cases h0 : (s.loans loanId).id = 0
  · exact .inl ⟨_, repayLoan_not_found now sender loanId amount s h0⟩
  by_cases ha : (s.loans loanId).active = false
  · exact .inl ⟨_, repayLoan_not_active now sender loanId amount s h0 ha⟩
  have ha' : (s.loans loanId).active = true := by simpa using ha
  by_cases hbb : (s.loans loanId).borrower ≠ sender
  · exact .inl ⟨_, repayLoan_wrong_sender now sender loanId amount s h0 ha' hbb⟩
  by_cases hz : amount = 0
  · exact .inl ⟨_, repayLoan_zero_amount now sender loanId amount s h0 ha' hbb hz⟩
  by_cases hfull : (s.loans loanId).repaidAmount + repaymentAmountOf now s loanId amount ≥
      calculateTotalDue now s loanId
  · by_cases hcol : (s.loans loanId).collateralAmount > 0
    · exact .inr ⟨h0, ha', .inr (.inr
        (repayLoan_ok_full_coll now sender loanId amount s h0 ha' hbb hz hfull hcol))⟩
    · exact .inr ⟨h0, ha', .inr (.inl
        (repayLoan_ok_full_nocoll now sender loanId amount s h0 ha' hbb hz hfull hcol))⟩
  · exact .inr ⟨h0, ha', .inl
      (repayLoan_partial_ok now sender loanId amount s h0 ha' hbb hz hfull)⟩

/-- Outcome inversion for `depositCollateral`. -/
theorem depositCollateral_split (sender loanId amount : Nat) (s : LendingState) :
    (∃ e, depositCollateral sender loanId amount s = (.error e, s)) ∨
    (¬(s.loans loanId).id = 0 ∧ (s.loans loanId).active = true ∧
      depositCollateral sender loanId amount s =
        (.ok (),
          { s with loans := (Function.update s.loans loanId
              { s.loans loanId with
                collateralAmount := (s.loans loanId).collateralAmount + amount }) })) := by
  by_cases h0 : (s.loans loanId).id = 0
  · exact .inl ⟨_, depositCollateral_not_found sender loanId amount s h0⟩
  by_cases hbb : (s.loans loanId).borrower ≠ sender
  · exact .inl ⟨_, depositCollateral_wrong_sender sender loanId amount s h0 hbb⟩
  by_cases ha : (s.loans loanId).active = false
  · exact .inl ⟨_, depositCollateral_not_active sender loanId amount s h0 hbb ha⟩
  have ha' : (s.loans loanId).active = true := by simpa using ha
  exact .inr ⟨h0, ha', depositCollateral_ok sender loanId amount s h0 hbb ha'⟩

/-- Outcome inversion for `markAsDefaulted`: a successful default requires an
active loan whose `endTime` lies strictly in the past. -/
theorem markAsDefaulted_split (env : LendingEnv) (now caller loanId : Nat) (s : LendingState) :
    (∃ e, markAsDefaulted env now caller loanId s = (.error e, s)) ∨
    (¬(s.loans loanId).id = 0 ∧ (s.loans loanId).active = true ∧
      (s.loans loanId).endTime < now ∧
      (markAsDefaulted env now caller loanId s =
        (.ok (),
          { s with
            loans := Function.update s.loans loanId
              { s.loans loanId with defaulted := true, active := false },
            borrowerProfiles := Function.update s.borrowerProfiles (s.loans loanId).borrower
              { s.borrowerProfiles (s.loans loanId).borrower with
                activeLoans := (s.borrowerProfiles (s.loans loanId).borrower).activeLoans - 1,
                defaultedLoans := (s.borrowerProfiles (s.loans loanId).borrower).defaultedLoans + 1 },
            totalActiveLoans := s.totalActiveLoans - (s.loans loanId).amount }) ∨
       markAsDefaulted env now caller loanId s =
        (.ok (),
          { s with
            loans := Function.update
              (Function.update s.loans loanId
                { s.loans loanId with defaulted := true, active := false })
              loanId
              { s.loans loanId with
                defaulted := true, active := false,
                collateralAmount := 0 },
            borrowerProfiles := Function.update s.borrowerProfiles (s.loans loanId).borrower
              { s.borrowerProfiles (s.loans loanId).borrower with
                activeLoans := (s.borrowerProfiles (s.loans loanId).borrower).activeLoans - 1,
                defaultedLoans := (s.borrowerProfiles (s.loans loanId).borrower).defaultedLoans + 1 },
            totalPoolFunds := s.totalPoolFunds + (s.loans loanId).collateralAmount,
            totalActiveLoans := s.totalActiveLoans - (s.loans loanId).amount }))) := by
  by_cases hc : caller ≠ env.owner
  · exact .inl ⟨_, markAsDefaulted_not_owner env now caller loanId s hc⟩
  by_cases h0 : (s.loans loanId).id = 0
  · exact .inl ⟨_, markAsDefaulted_not_found env now caller loanId s hc h0⟩
  by_cases ha : (s.loans loanId).active = false
  · exact .inl ⟨_, markAsDefaulted_not_active env now caller loanId s hc h0 ha⟩
  have ha' : (s.loans loanId).active = true := by simpa using ha
  by_cases ht : now ≤ (s.loans loanId).endTime
  · exact .inl ⟨_, markAsDefaulted_not_expired env now caller loanId s hc h0 ha' ht⟩
  by_cases hcol : (s.loans loanId).collateralAmount > 0
  · exact .inr ⟨h0, ha', by omega, .inr
      (markAsDefaulted_ok_coll env now caller loanId s hc h0 ha' ht hcol)⟩
  · exact .inr ⟨h0, ha', by omega, .inl
      (markAsDefaulted_ok_nocoll env now caller loanId s hc h0 ha' ht hcol)⟩

/-- Outcome inversion for `fundPool`. -/
theorem fundPool_split (amount : Nat) (s : LendingState) :
    (∃ e, fundPool amount s = (.error e, s)) ∨
    fundPool amount s = (.ok (), { s with totalPoolFunds := s.totalPoolFunds + amount }) := by
  by_cases hz : amount = 0
  · exact .inl ⟨_, fundPool_zero amount s hz⟩
  · exact .inr (fundPool_ok amount s hz)

/-- Outcome inversion for `withdrawFromPool`. -/
theorem withdrawFromPool_split (env : LendingEnv) (caller amount : Nat) (s : LendingState) :
    (∃ e, withdrawFromPool env caller amount s = (.error e, s)) ∨
    withdrawFromPool env caller amount s =
      (.ok (), { s with totalPoolFunds := s.totalPoolFunds - amount }) := by
  by_cases hc : caller ≠ env.owner
  · exact .inl ⟨_, withdrawFromPool_not_owner env caller amount s hc⟩
  by_cases hp : amount > s.totalPoolFunds
  · exact .inl ⟨_, withdrawFromPool_insufficient env caller amount s hc hp⟩
  · exact .inr (withdrawFromPool_ok env caller amount s hc hp)

/-- Outcome inversion for `setBorrowerBan`. -/
theorem setBorrowerBan_split (env : LendingEnv) (caller borrower : Nat) (banned : Bool)
    (s : LendingState) :
    (∃ e, setBorrowerBan env caller borrower banned s = (.error e, s)) ∨
    setBorrowerBan env caller borrower banned s =
      (.ok (),
        { s with borrowerProfiles := (Function.update s.borrowerProfiles borrower
            { s.borrowerProfiles borrower with isBanned := banned }) }) := by
  by_cases hc : caller ≠ env.owner
  · exact .inl ⟨_, setBorrowerBan_not_owner env caller borrower banned s hc⟩
  · exact .inr (setBorrowerBan_ok env caller borrower banned s hc)

theorem commit_error {α : Type} (s t : LendingState) (e : LendingError) :
    commit (α := α) s (.error e, t) = s := rfl

theorem commit_ok {α : Type} (s t : LendingState) (v : α) :
    commit s (.ok v, t) = t := rfl

theorem range_succ_erase (n : Nat) :
    (Finset.range (n + 1 + 1)).erase (n + 1) = Finset.range (n + 1) := by
  rw [Finset.range_succ, Finset.erase_insert (by simp)]

/-- Split the active-loan sum at one key. -/
theorem sum_contrib_split (f : Nat → Loan) (n j : Nat) (hj : j ∈ Finset.range (n + 1)) :
    ∑ i in Finset.range (n + 1), contrib (f i)
      = contrib (f j) + ∑ i in (Finset.range (n + 1)).erase j, contrib (f i) :=
  (Finset.add_sum_erase _ (fun i => contrib (f i)) hj).symm

/-- The active-loan sum after rewriting one key. -/
theorem sum_contrib_update (f : Nat → Loan) (n j : Nat) (l : Loan)
    (hj : j ∈ Finset.range (n + 1)) :
    ∑ i in Finset.range (n + 1), contrib (Function.update f j l i)
      = contrib l + ∑ i in (Finset.range (n + 1)).erase j, contrib (f i) := by
  rw [← Finset.add_sum_erase _ (fun i => contrib (Function.update f j l i)) hj,
    Function.update_same]
  congr 1
  exact Finset.sum_congr rfl fun i hi => by
    rw [Function.update_noteq (Finset.ne_of_mem_erase hi)]

/-- A key holding a loan with a nonzero `id` lies in `1 .. loanCounter`. -/
theorem loanId_bounds (s : LendingState)
    (hBeyond : ∀ i, s.loanCounter < i → s.loans i = defaultLoan)
    (hZero : s.loans 0 = defaultLoan) (loanId : Nat)
    (h0 : ¬(s.loans loanId).id = 0) : 1 ≤ loanId ∧ loanId ≤ s.loanCounter := by
  constructor
  · rcases Nat.eq_zero_or_pos loanId with rfl | h
    · exact absurd (by rw [hZero]; rfl) h0
    · exact h
  · by_contra h
    push_neg at h
    exact h0 (by rw [hBeyond loanId h]; rfl)

/-- Rewriting one existing key of the loan book preserves the invariant,
provided the new record keeps the id and the flag discipline and the
active-loan total absorbs the contribution delta. -/
theorem lendingInv_update (s : LendingState) (hInv : LendingInv s) (loanId : Nat) (l' : Loan)
    (hlo : 1 ≤ loanId) (hhi : loanId ≤ s.loanCounter)
    (t : LendingState)
    (htc : t.loanCounter = s.loanCounter)
    (htl : t.loans = Function.update s.loans loanId l')
    (hid : l'.id = (s.loans loanId).id)
    (hAA' : l'.active = true → l'.approved = true)
    (hDA' : l'.defaulted = true → l'.approved = true)
    (hNB' : ¬(l'.active = true ∧ l'.defaulted = true))
    (hts : ∀ rest, s.totalActiveLoans = contrib (s.loans loanId) + rest →
      t.totalActiveLoans = contrib l' + rest) :
    LendingInv t := by
  obtain ⟨⟨hBeyond, hZero, hIds, hAA, hDA, hNB⟩, hSum⟩ := hInv
  have hmem : loanId ∈ Finset.range (s.loanCounter + 1) := by simp; omega
  refine ⟨⟨?_, ?_, ?_, ?_, ?_, ?_⟩, ?_⟩
  · intro i hi
    rw [htc] at hi
    rw [htl, Function.update_noteq (by omega)]
    exact hBeyond i hi
  · rw [htl, Function.update_noteq (by omega)]
    exact hZero
  · intro i h1 h2
    rw [htc] at h2
    rw [htl]
    by_cases hij : i = loanId
    · subst hij; rw [Function.update_same, hid]; exact hIds i h1 h2
    · rw [Function.update_noteq hij]; exact hIds i h1 h2
  · intro i hacti
    rw [htl] at hacti ⊢
    by_cases hij : i = loanId
    · subst hij; rw [Function.update_same] at hacti ⊢; exact hAA' hacti
    · rw [Function.update_noteq hij] at hacti ⊢; exact hAA i hacti
  · intro i hdefi
    rw [htl] at hdefi ⊢
    by_cases hij : i = loanId
    · subst hij; rw [Function.update_same] at hdefi ⊢; exact hDA' hdefi
    · rw [Function.update_noteq hij] at hdefi ⊢; exact hDA i hdefi
  · intro i
    rw [htl]
    by_cases hij : i = loanId
    · subst hij; rw [Function.update_same]; exact hNB'
    · rw [Function.update_noteq hij]; exact hNB i
  · have hs := hSum
    rw [activeSum, sum_contrib_split s.loans s.loanCounter loanId hmem] at hs
    have ht := hts _ hs
    rw [activeSum, htc, htl, sum_contrib_update _ _ _ _ hmem]
    exact ht

/-- Appending a fresh inactive loan at key `loanCounter + 1` preserves the
invariant. -/
theorem lendingInv_append (s : LendingState) (hInv : LendingInv s) (l' : Loan)
    (hid : l'.id = s.loanCounter + 1) (hact : l'.active = false)
    (hdef : l'.defaulted = false)
    (t : LendingState)
    (htc : t.loanCounter = s.loanCounter + 1)
    (htl : t.loans = Function.update s.loans (s.loanCounter + 1) l')
    (hts : t.totalActiveLoans = s.totalActiveLoans) :
    LendingInv t := by
  obtain ⟨⟨hBeyond, hZero, hIds, hAA, hDA, hNB⟩, hSum⟩ := hInv
  refine ⟨⟨?_, ?_, ?_, ?_, ?_, ?_⟩, ?_⟩
  · intro i hi
    rw [htc] at hi
    rw [htl, Function.update_noteq (by omega)]
    exact hBeyond i (by omega)
  · rw [htl, Function.update_noteq (by omega)]
    exact hZero
  · intro i h1 h2
    rw [htc] at h2
    rw [htl]
    by_cases hij : i = s.loanCounter + 1
    · subst hij; rw [Function.update_same, hid]
    · rw [Function.update_noteq hij]
      exact hIds i h1 (by omega)
  · intro i hacti
    rw [htl] at hacti ⊢
    by_cases hij : i = s.loanCounter + 1
    · subst hij; rw [Function.update_same] at hacti; simp [hact] at hacti
    · rw [Function.update_noteq hij] at hacti ⊢; exact hAA i hacti
  · intro i hdefi
    rw [htl] at hdefi ⊢
    by_cases hij : i = s.loanCounter + 1
    · subst hij; rw [Function.update_same] at hdefi; simp [hdef] at hdefi
    · rw [Function.update_noteq hij] at hdefi ⊢; exact hDA i hdefi
  · intro i
    rw [htl]
    by_cases hij : i = s.loanCounter + 1
    · subst hij; rw [Function.update_same]; rintro ⟨hacti, -⟩
      simp [hact] at hacti
    · rw [Function.update_noteq hij]; exact hNB i
  · rw [activeSum, htc, htl,
      sum_contrib_update _ (s.loanCounter + 1) _ _ (by simp), range_succ_erase, hts]
    rw [activeSum] at hSum
    simp [contrib, hact, hSum]

/-- The master invariant survives every transaction. -/
theorem lendingInv_step (env : LendingEnv) (op : LendingOp) (s : LendingState)
    (hInv : LendingInv s) : LendingInv (lendingStep env op s) := by
  have hBeyond := hInv.1.1
  have hZero := hInv.1.2.1
  have hAA := hInv.1.2.2.2.1
  have hDA := hInv.1.2.2.2.2.1
  have hNB := hInv.1.2.2.2.2.2
  cases op with
  | requestLoan sender amount duration =>
    simp only [lendingStep]
    rcases requestLoan_split env sender amount duration s with ⟨e, hE⟩ | hE
    · rw [hE, commit_error]; exact hInv
    rw [hE, commit_ok]
    exact lendingInv_append s hInv _ rfl rfl rfl _ rfl rfl rfl
  | approveLoan now caller loanId =>
    simp only [lendingStep]
    rcases approveLoan_split env now caller loanId s with ⟨e, hE⟩ | ⟨h0, happ, hE⟩
    · rw [hE, commit_error]; exact hInv
    rw [hE, commit_ok]
    obtain ⟨hlo, hhi⟩ := loanId_bounds s hBeyond hZero loanId h0
    have hact : (s.loans loanId).active = false := by
      rcases Bool.eq_false_or_eq_true (s.loans loanId).active with h | h
      · exact absurd (hAA loanId h) (by simp [happ])
      · exact h
    have hdef : (s.loans loanId).defaulted = false := by
      rcases Bool.eq_false_or_eq_true (s.loans loanId).defaulted with h | h
      · exact absurd (hDA loanId h) (by simp [happ])
      · exact h
    refine lendingInv_update s hInv loanId
      { s.loans loanId with
        approved := true, active := true,
        startTime := now, endTime := now + (s.loans loanId).duration }
      hlo hhi _ rfl rfl rfl (fun _ => rfl) (fun _ => rfl) ?_ ?_
    · rintro ⟨-, h⟩; simp [hdef] at h
    · intro rest h
      simp only [contrib, hact] at h
      simp only [contrib]
      simp at h ⊢
      omega
  | repayLoan now sender loanId amount =>
    simp only [lendingStep]
    rcases repayLoan_split now sender loanId amount s with ⟨e, hE⟩ | ⟨h0, hact, hE3⟩
    · rw [hE, commit_error]; exact hInv
    obtain ⟨hlo, hhi⟩ := loanId_bounds s hBeyond hZero loanId h0
    have happ : (s.loans loanId).approved = true := hAA loanId hact
    have hdef : (s.loans loanId).defaulted = false := by
      rcases Bool.eq_false_or_eq_true (s.loans loanId).defaulted with h | h
      · exact absurd ⟨hact, h⟩ (hNB loanId)
      · exact h
    rcases hE3 with hE | hE | hE
    · rw [hE, commit_ok]
      refine lendingInv_update s hInv loanId
        { s.loans loanId with
          repaidAmount := (s.loans loanId).repaidAmount + repaymentAmountOf now s loanId amount }
        hlo hhi _ rfl rfl rfl (fun _ => happ) ?_ ?_ ?_
      · intro h; simp only at h; simp [hdef] at h
      · rintro ⟨-, h⟩; simp only at h; simp [hdef] at h
      · intro rest h
        simp only [contrib, hact] at h ⊢
        simpa using h
    · rw [hE, commit_ok]
      refine lendingInv_update s hInv loanId
        { s.loans loanId with
          repaidAmount := (s.loans loanId).repaidAmount + repaymentAmountOf now s loanId amount,
          active := false }
        hlo hhi _ rfl (by rw [Function.update_idem]) rfl ?_ ?_ ?_ ?_
      · intro h; simp at h
      · intro h; simp only at h; simp [hdef] at h
      · rintro ⟨h, -⟩; simp at h
      · intro rest h
        simp only [contrib, hact] at h
        simp only [contrib]
        simp at h ⊢
        omega
    · rw [hE, commit_ok]
      refine lendingInv_update s hInv loanId
        { s.loans loanId with
          repaidAmount := (s.loans loanId).repaidAmount + repaymentAmountOf now s loanId amount,
          active := false, collateralAmount := 0 }
        hlo hhi _ rfl (by rw [Function.update_idem, Function.update_idem]) rfl ?_ ?_ ?_ ?_
      · intro h; simp at h
      · intro h; simp only at h; simp [hdef] at h
      · rintro ⟨h, -⟩; simp at h
      · intro rest h
        simp only [contrib, hact] at h
        simp only [contrib]
        simp at h ⊢
        omega
  | depositCollateral sender loanId amount =>
    simp only [lendingStep]
    rcases depositCollateral_split sender loanId amount s with ⟨e, hE⟩ | ⟨h0, hact, hE⟩
    · rw [hE, commit_error]; exact hInv
    rw [hE, commit_ok]
    obtain ⟨hlo, hhi⟩ := loanId_bounds s hBeyond hZero loanId h0
    have happ : (s.loans loanId).approved = true := hAA loanId hact
    have hdef : (s.loans loanId).defaulted = false := by
      rcases Bool.eq_false_or_eq_true (s.loans loanId).defaulted with h | h
      · exact absurd ⟨hact, h⟩ (hNB loanId)
      · exact h
    refine lendingInv_update s hInv loanId
      { s.loans loanId with
        collateralAmount := (s.loans loanId).collateralAmount + amount }
      hlo hhi _ rfl rfl rfl (fun _ => happ) ?_ ?_ ?_
    · intro h; simp only at h; simp [hdef] at h
    · rintro ⟨-, h⟩; simp only at h; simp [hdef] at h
    · intro rest h
      simp only [contrib, hact] at h ⊢
      simpa using h
  | markAsDefaulted now caller loanId =>
    simp only [lendingStep]
    rcases markAsDefaulted_split env now caller loanId s with ⟨e, hE⟩ | ⟨h0, hact, ht, hE2⟩
    · rw [hE, commit_error]; exact hInv
    obtain ⟨hlo, hhi⟩ := loanId_bounds s hBeyond hZero loanId h0
    have happ : (s.loans loanId).approved = true := hAA loanId hact
    rcases hE2 with hE | hE
    · rw [hE, commit_ok]
      refine lendingInv_update s hInv loanId
        { s.loans loanId with defaulted := true, active := false }
        hlo hhi _ rfl rfl rfl ?_ (fun _ => happ) ?_ ?_
      · intro h; simp at h
      · rintro ⟨h, -⟩; simp at h
      · intro rest h
        simp only [contrib, hact] at h
        simp only [contrib]
        simp at h ⊢
        omega
    · rw [hE, commit_ok]
      refine lendingInv_update s hInv loanId
        { s.loans loanId with
          defaulted := true, active := false,
          collateralAmount := 0 }
        hlo hhi _ rfl (by rw [Function.update_idem]) rfl ?_ (fun _ => happ) ?_ ?_
      · intro h; simp at h
      · rintro ⟨h, -⟩; simp at h
      · intro rest h
        simp only [contrib, hact] at h
        simp only [contrib]
        simp at h ⊢
        omega
  | fundPool sender amount =>
    simp only [lendingStep]
    rcases fundPool_split amount s with ⟨e, hE⟩ | hE
    · rw [hE, commit_error]; exact hInv
    · rw [hE, commit_ok]; exact hInv
  | withdrawFromPool caller amount =>
    simp only [lendingStep]
    rcases withdrawFromPool_split env caller amount s with ⟨e, hE⟩ | hE
    · rw [hE, commit_error]; exact hInv
    · rw [hE, commit_ok]; exact hInv
  | setBorrowerBan caller borrower banned =>
    simp only [lendingStep]
    rcases setBorrowerBan_split env caller borrower banned s with ⟨e, hE⟩ | hE
    · rw [hE, commit_error]; exact hInv
    · rw [hE, commit_ok]; exact hInv

/-- The invariant holds on deployment. -/
theorem lendingInv_init : LendingInv initialLendingState := by
  refine ⟨⟨?_, ?_, ?_, ?_, ?_, ?_⟩, ?_⟩
  · intro i _; rfl
  · rfl
  · intro i h1 h2
    exfalso
    simp [initialLendingState] at h2
    omega
  · intro i h; simp [initialLendingState, defaultLoan] at h
  · intro i h; simp [initialLendingState, defaultLoan] at h
  · intro i; rintro ⟨h, -⟩; simp [initialLendingState, defaultLoan] at h
  · simp [initialLendingState, activeSum, contrib, defaultLoan]

/-- The invariant holds along every trace. -/
theorem lendingInv_execTrace (env : LendingEnv) (ops : List LendingOp) :
    ∀ s : LendingState, LendingInv s → LendingInv (execTrace env ops s) := by
  induction ops with
  | nil => exact fun s h => h
  | cons op rest ih => exact fun s h => ih _ (lendingInv_step env op s h)

/-- C9: in every state reachable from deployment, `totalActiveLoans` equals
the sum of `loan.amount` over the loans whose `active` flag is set (every
key beyond `loanCounter` being inactive, the range sum covers all loans);
moreover a successful `approveLoan` adds exactly `loan.amount`, and a
deactivating (full) repayment and a successful `markAsDefaulted` each
subtract exactly `loan.amount`. -/
theorem totalActiveLoans_matches_active_sum (env : LendingEnv) (ops : List LendingOp) :
    ((execTrace env ops initialLendingState).totalActiveLoans
        = activeSum (execTrace env ops initialLendingState) ∧
      (∀ i, (execTrace env ops initialLendingState).loanCounter < i →
        ((execTrace env ops initialLendingState).loans i).active = false)) ∧
    (∀ (env' : LendingEnv) (now caller loanId : Nat) (s : LendingState),
      isErr (approveLoan env' now caller loanId s).1 = false →
        (approveLoan env' now caller loanId s).2.totalActiveLoans
          = s.totalActiveLoans + (s.loans loanId).amount) ∧
    (∀ (now sender loanId amount : Nat) (s : LendingState),
      isErr (repayLoan now sender loanId amount s).1 = false →
        ((repayLoan now sender loanId amount s).2.loans loanId).active = false →
        (repayLoan now sender loanId amount s).2.totalActiveLoans
          = s.totalActiveLoans - (s.loans loanId).amount) ∧
    (∀ (env' : LendingEnv) (now caller loanId : Nat) (s : LendingState),
      isErr (markAsDefaulted env' now caller loanId s).1 = false →
        (markAsDefaulted env' now caller loanId s).2.totalActiveLoans
          = s.totalActiveLoans - (s.loans loanId).amount) := by
  have hInv := lendingInv_execTrace env ops initialLendingState lendingInv_init
  refine ⟨⟨hInv.2, ?_⟩, ?_, ?_, ?_⟩
  · intro i hi
    rw [hInv.1.1 i hi]
    rfl
  · intro env' now caller loanId s h
    rcases approveLoan_split env' now caller loanId s with ⟨e, hE⟩ | ⟨-, -, hE⟩
    · rw [hE] at h; simp [isErr] at h
    · rw [hE]
  · intro now sender loanId amount s h hinact
    rcases repayLoan_split now sender loanId amount s with ⟨e, hE⟩ | ⟨-, hact, hE3⟩
    · rw [hE] at h; simp [isErr] at h
    rcases hE3 with hE | hE | hE
    · rw [hE] at hinact
      simp [hact] at hinact
    · rw [hE, Function.update_idem]
    · rw [hE, Function.update_idem, Function.update_idem]
  · intro env' now caller loanId s h
    rcases markAsDefaulted_split env' now caller loanId s with ⟨e, hE⟩ | ⟨-, -, -, hE2⟩
    · rw [hE] at h; simp [isErr] at h
    rcases hE2 with hE | hE
    · rw [hE]
    · rw [hE, Function.update_idem]

/-- Witness for C9 at a concrete trace: fund, request, approve, then check
the sum equality, the out-of-range inactivity, and each delta at a concrete
successful call. -/
theorem totalActiveLoans_matches_active_sum_witness :
    ((execTrace demoEnv approveNoCollateralOps initialLendingState).totalActiveLoans
        = activeSum (execTrace demoEnv approveNoCollateralOps initialLendingState)) ∧
    ((execTrace demoEnv approveNoCollateralOps initialLendingState).loans 5).active = false ∧
    ((approveLoan demoEnv 0 0 1
        (execTrace demoEnv [.fundPool 9 (10 * 10 ^ 18),
          .requestLoan 5 (10 * 10 ^ 18) (7 * 86400)] initialLendingState)).2.totalActiveLoans
      = (execTrace demoEnv [.fundPool 9 (10 * 10 ^ 18),
          .requestLoan 5 (10 * 10 ^ 18) (7 * 86400)] initialLendingState).totalActiveLoans
        + ((execTrace demoEnv [.fundPool 9 (10 * 10 ^ 18),
          .requestLoan 5 (10 * 10 ^ 18) (7 * 86400)] initialLendingState).loans 1).amount) ∧
    ((repayLoan 0 5 1 (10 * 10 ^ 18)
        (execTrace demoEnv approveNoCollateralOps initialLendingState)).2.totalActiveLoans
      = (execTrace demoEnv approveNoCollateralOps initialLendingState).totalActiveLoans
        - ((execTrace demoEnv approveNoCollateralOps initialLendingState).loans 1).amount) ∧
    ((markAsDefaulted demoEnv (7 * 86400 + 1) 0 1
        (execTrace demoEnv approveNoCollateralOps initialLendingState)).2.totalActiveLoans
      = (execTrace demoEnv approveNoCollateralOps initialLendingState).totalActiveLoans
        - ((execTrace demoEnv approveNoCollateralOps initialLendingState).loans 1).amount) :=
  ⟨(totalActiveLoans_matches_active_sum demoEnv approveNoCollateralOps).1.1,
    (totalActiveLoans_matches_active_sum demoEnv approveNoCollateralOps).1.2 5 (by decide),
    (totalActiveLoans_matches_active_sum demoEnv approveNoCollateralOps).2.1 demoEnv 0 0 1 _
      (by decide),
    (totalActiveLoans_matches_active_sum demoEnv approveNoCollateralOps).2.2.1 0 5 1
      (10 * 10 ^ 18) _ (by decide) (by decide),
    (totalActiveLoans_matches_active_sum demoEnv approveNoCollateralOps).2.2.2 demoEnv
      (7 * 86400 + 1) 0 1 _ (by decide)⟩

/-- A loan that is approved but no longer active is never written again:
every entry point either reverts on it or writes a different key. -/
theorem closedLoan_step (env : LendingEnv) (op : LendingOp) (s : LendingState) (i : Nat)
    (hInv : LendingInv s)
    (happ : (s.loans i).approved = true) (hact : (s.loans i).active = false) :
    (lendingStep env op s).loans i = s.loans i := by
  have hBeyond := hInv.1.1
  have hile : i ≤ s.loanCounter := by
    by_contra hgt
    push_neg at hgt
    rw [hBeyond i hgt] at happ
    simp [defaultLoan] at happ
  cases op with
  | requestLoan sender amount duration =>
    simp only [lendingStep]
    rcases requestLoan_split env sender amount duration s with ⟨e, hE⟩ | hE
    · rw [hE, commit_error]
    · rw [hE, commit_ok]
      dsimp only
      rw [Function.update_noteq (by omega)]
  | approveLoan now caller loanId =>
    simp only [lendingStep]
    rcases approveLoan_split env now caller loanId s with ⟨e, hE⟩ | ⟨h0, happ', hE⟩
    · rw [hE, commit_error]
    · rw [hE, commit_ok]
      dsimp only
      have hne : i ≠ loanId := by
        intro hEq
        rw [hEq] at happ
        rw [happ] at happ'
        cases happ'
      rw [Function.update_noteq hne]
  | repayLoan now sender loanId amount =>
    simp only [lendingStep]
    rcases repayLoan_split now sender loanId amount s with ⟨e, hE⟩ | ⟨h0, hact', hE3⟩
    · rw [hE, commit_error]
    have hne : i ≠ loanId := by
      intro hEq
      rw [hEq] at hact
      rw [hact] at hact'
      cases hact'
    rcases hE3 with hE | hE | hE <;>
      (rw [hE, commit_ok]
       dsimp only
       try simp only [Function.update_idem]
       rw [Function.update_noteq hne])
  | depositCollateral sender loanId amount =>
    simp only [lendingStep]
    rcases depositCollateral_split sender loanId amount s with ⟨e, hE⟩ | ⟨h0, hact', hE⟩
    · rw [hE, commit_error]
    · rw [hE, commit_ok]
      dsimp only
      have hne : i ≠ loanId := by
        intro hEq
        rw [hEq] at hact
        rw [hact] at hact'
        cases hact'
      rw [Function.update_noteq hne]
  | markAsDefaulted now caller loanId =>
    simp only [lendingStep]
    rcases markAsDefaulted_split env now caller loanId s with ⟨e, hE⟩ | ⟨h0, hact', ht, hE2⟩
    · rw [hE, commit_error]
    have hne : i ≠ loanId := by
      intro hEq
      rw [hEq] at hact
      rw [hact] at hact'
      cases hact'
    rcases hE2 with hE | hE <;>
      (rw [hE, commit_ok]
       dsimp only
       try simp only [Function.update_idem]
       rw [Function.update_noteq hne])
  | fundPool sender amount =>
    simp only [lendingStep]
    rcases fundPool_split amount s with ⟨e, hE⟩ | hE
    · rw [hE, commit_error]
    · rw [hE, commit_ok]
  | withdrawFromPool caller amount =>
    simp only [lendingStep]
    rcases withdrawFromPool_split env caller amount s with ⟨e, hE⟩ | hE
    · rw [hE, commit_error]
    · rw [hE, commit_ok]
  | setBorrowerBan caller borrower banned =>
    simp only [lendingStep]
    rcases setBorrowerBan_split env caller borrower banned s with ⟨e, hE⟩ | hE
    · rw [hE, commit_error]
    · rw [hE, commit_ok]

/-- A closed (approved, inactive) loan stays closed along every further
trace. -/
theorem closedLoan_execTrace (env : LendingEnv) (ops : List LendingOp) :
    ∀ (s : LendingState) (i : Nat), LendingInv s →
      (s.loans i).approved = true → (s.loans i).active = false →
      ((execTrace env ops s).loans i).approved = true ∧
        ((execTrace env ops s).loans i).active = false := by
  induction ops with
  | nil => exact fun s i _ h1 h2 => ⟨h1, h2⟩
  | cons op rest ih =>
    intro s i hInv h1 h2
    have hstep := closedLoan_step env op s i hInv h1 h2
    exact ih (lendingStep env op s) i (lendingInv_step env op s hInv)
      (by rw [hstep]; exact h1) (by rw [hstep]; exact h2)

/-- C7: loan lifecycle transitions are one-way.  An approved loan that is no
longer active (by full repayment or default) keeps `active = false` in every
later reachable state; no reachable state has a loan both active and
defaulted; `approveLoan` reverts `LoanAlreadyApproved` on an approved loan;
`repayLoan` and `depositCollateral` revert `LoanNotApproved` on an inactive
loan; and `markAsDefaulted` succeeds only on an active loan whose `endTime`
has passed. -/
theorem loan_lifecycle_one_way :
    (∀ (env : LendingEnv) (ops : List LendingOp) (i : Nat),
      ((execTrace env ops initialLendingState).loans i).approved = true →
      ((execTrace env ops initialLendingState).loans i).active = false →
      ∀ more : List LendingOp,
        ((execTrace env more (execTrace env ops initialLendingState)).loans i).approved = true ∧
        ((execTrace env more (execTrace env ops initialLendingState)).loans i).active = false) ∧
    (∀ (env : LendingEnv) (ops : List LendingOp) (i : Nat),
      ¬(((execTrace env ops initialLendingState).loans i).active = true ∧
        ((execTrace env ops initialLendingState).loans i).defaulted = true)) ∧
    (∀ (env : LendingEnv) (now caller loanId : Nat) (s : LendingState),
      caller = env.owner → ¬(s.loans loanId).id = 0 →
      (s.loans loanId).approved = true →
        (approveLoan env now caller loanId s).1 = .error .LoanAlreadyApproved) ∧
    (∀ (now sender loanId amount : Nat) (s : LendingState),
      ¬(s.loans loanId).id = 0 → (s.loans loanId).active = false →
        (repayLoan now sender loanId amount s).1 = .error .LoanNotApproved) ∧
    (∀ (sender loanId amount : Nat) (s : LendingState),
      ¬(s.loans loanId).id = 0 → (s.loans loanId).borrower = sender →
      (s.loans loanId).active = false →
        (depositCollateral sender loanId amount s).1 = .error .LoanNotApproved) ∧
    (∀ (env : LendingEnv) (now caller loanId : Nat) (s : LendingState),
      isErr (markAsDefaulted env now caller loanId s).1 = false →
        (s.loans loanId).active = true ∧ (s.loans loanId).endTime < now) := by
  refine ⟨?_, ?_, ?_, ?_, ?_, ?_⟩
  · intro env ops i h1 h2 more
    exact closedLoan_execTrace env more _ i
      (lendingInv_execTrace env ops initialLendingState lendingInv_init) h1 h2
  · intro env ops i
    exact (lendingInv_execTrace env ops initialLendingState lendingInv_init).1.2.2.2.2.2 i
  · intro env now caller loanId s hc h0 happ
    rw [approveLoan_already_approved env now caller loanId s (by simp [hc]) h0 happ]
  · intro now sender loanId amount s h0 hact
    rw [repayLoan_not_active now sender loanId amount s h0 hact]
  · intro sender loanId amount s h0 hbor hact
    rw [depositCollateral_not_active sender loanId amount s h0 (by simp [hbor]) hact]
  · intro env now caller loanId s h
    rcases markAsDefaulted_split env now caller loanId s with ⟨e, hE⟩ | ⟨-, hact, ht, -⟩
    · rw [hE] at h; simp [isErr] at h
    · exact ⟨hact, ht⟩

/-- Witness for C7 at a concrete lifecycle: a loan funded, requested,
approved, and defaulted, then probed with every entry point. -/
theorem loan_lifecycle_one_way_witness :
    (((execTrace demoEnv [.approveLoan 9 0 1, .repayLoan 9 5 1 7]
        (execTrace demoEnv defaultedLoanOps initialLendingState)).loans 1).approved = true ∧
      ((execTrace demoEnv [.approveLoan 9 0 1, .repayLoan 9 5 1 7]
        (execTrace demoEnv defaultedLoanOps initialLendingState)).loans 1).active = false) ∧
    ¬(((execTrace demoEnv defaultedLoanOps initialLendingState).loans 1).active = true ∧
      ((execTrace demoEnv defaultedLoanOps initialLendingState).loans 1).defaulted = true) ∧
    ((approveLoan demoEnv 9 0 1
      (execTrace demoEnv approveNoCollateralOps initialLendingState)).1
        = .error .LoanAlreadyApproved) ∧
    ((repayLoan 9 5 1 7 (execTrace demoEnv defaultedLoanOps initialLendingState)).1
        = .error .LoanNotApproved) ∧
    ((depositCollateral 5 1 7 (execTrace demoEnv defaultedLoanOps initialLendingState)).1
        = .error .LoanNotApproved) ∧
    (((execTrace demoEnv approveNoCollateralOps initialLendingState).loans 1).active = true ∧
      ((execTrace demoEnv approveNoCollateralOps initialLendingState).loans 1).endTime
        < 7 * 86400 + 1) :=
  ⟨loan_lifecycle_one_way.1 demoEnv defaultedLoanOps 1 (by decide) (by decide)
      [.approveLoan 9 0 1, .repayLoan 9 5 1 7],
    loan_lifecycle_one_way.2.1 demoEnv defaultedLoanOps 1,
    loan_lifecycle_one_way.2.2.1 demoEnv 9 0 1
      (execTrace demoEnv approveNoCollateralOps initialLendingState) rfl (by decide) (by decide),
    loan_lifecycle_one_way.2.2.2.1 9 5 1 7
      (execTrace demoEnv defaultedLoanOps initialLendingState) (by decide) (by decide),
    loan_lifecycle_one_way.2.2.2.2.1 5 1 7
      (execTrace demoEnv defaultedLoanOps initialLendingState) (by decide) (by decide) (by decide),
    loan_lifecycle_one_way.2.2.2.2.2 demoEnv (7 * 86400 + 1) 0 1
      (execTrace demoEnv approveNoCollateralOps initialLendingState) (by decide)⟩

/-- C1 counterexample: the per-user active-loan cap is violated in a
reachable state.  User 5 requests four loans while holding none (each
request passes the `activeLoans < MAX_ACTIVE_LOANS_PER_USER` check), and the
owner then approves all four — `approveLoan` never re-checks the cap, so
`activeLoans` reaches 4 > 3. -/
theorem activeLoans_cap_exceeded_counterexample :
    ¬(((execTrace demoEnv fourLoanOps initialLendingState).borrowerProfiles 5).activeLoans
        ≤ MAX_ACTIVE_LOANS_PER_USER) := by
  decide

/-- C1 amended: the loan-count cap is enforced at request time only —
`requestLoan` reverts `UnauthorizedAccess` when the caller already holds
`MAX_ACTIVE_LOANS_PER_USER` active loans, but `approveLoan` increments the
borrower's `activeLoans` unconditionally, so approving pending requests can
push it beyond the cap. -/
theorem loan_cap_checked_at_request_only :
    (∀ (env : LendingEnv) (sender amount duration : Nat) (s : LendingState),
      MIN_LOAN_AMOUNT ≤ amount → amount ≤ MAX_LOAN_AMOUNT →
      MIN_LOAN_DURATION ≤ duration → duration ≤ MAX_LOAN_DURATION →
      (env.identity sender).isRegistered = true →
      MIN_REPUTATION_FOR_LOAN ≤ (env.identity sender).reputationScore →
      (s.borrowerProfiles sender).isBanned = false →
      MAX_ACTIVE_LOANS_PER_USER ≤ (s.borrowerProfiles sender).activeLoans →
        (requestLoan env sender amount duration s).1 = .error .UnauthorizedAccess) ∧
    (∀ (env : LendingEnv) (now caller loanId : Nat) (s : LendingState),
      isErr (approveLoan env now caller loanId s).1 = false →
        ((approveLoan env now caller loanId s).2.borrowerProfiles
            (s.loans loanId).borrower).activeLoans
          = (s.borrowerProfiles (s.loans loanId).borrower).activeLoans + 1) := by
  constructor
  · intro env sender amount duration s ha1 ha2 hd1 hd2 hreg hrep hban hcap
    rw [requestLoan_cap_reached env sender amount duration s (by omega) (by omega)
      hreg (by omega) hban hcap]
  · intro env now caller loanId s h
    rcases approveLoan_split env now caller loanId s with ⟨e, hE⟩ | ⟨-, -, hE⟩
    · rw [hE] at h; simp [isErr] at h
    · rw [hE]
      dsimp only
      rw [Function.update_same]

/-- Witness for the amended C1: with four active loans, a fifth request
reverts; and a concrete approval increments the borrower's count. -/
theorem loan_cap_checked_at_request_only_witness :
    ((requestLoan demoEnv 5 (10 * 10 ^ 18) (7 * 86400)
        (execTrace demoEnv fourLoanOps initialLendingState)).1
      = .error .UnauthorizedAccess) ∧
    (((approveLoan demoEnv 0 0 1
        (execTrace demoEnv [.fundPool 9 (10 * 10 ^ 18),
          .requestLoan 5 (10 * 10 ^ 18) (7 * 86400)] initialLendingState)).2.borrowerProfiles
        ((execTrace demoEnv [.fundPool 9 (10 * 10 ^ 18),
          .requestLoan 5 (10 * 10 ^ 18) (7 * 86400)] initialLendingState).loans 1).borrower).activeLoans
      = (((execTrace demoEnv [.fundPool 9 (10 * 10 ^ 18),
          .requestLoan 5 (10 * 10 ^ 18) (7 * 86400)] initialLendingState).borrowerProfiles
          ((execTrace demoEnv [.fundPool 9 (10 * 10 ^ 18),
            .requestLoan 5 (10 * 10 ^ 18) (7 * 86400)] initialLendingState).loans 1).borrower).activeLoans
        + 1)) :=
  ⟨loan_cap_checked_at_request_only.1 demoEnv 5 (10 * 10 ^ 18) (7 * 86400)
      (execTrace demoEnv fourLoanOps initialLendingState)
      (by decide) (by decide) (by decide) (by decide) (by decide) (by decide)
      (by decide) (by decide),
    loan_cap_checked_at_request_only.2 demoEnv 0 0 1
      (execTrace demoEnv [.fundPool 9 (10 * 10 ^ 18),
        .requestLoan 5 (10 * 10 ^ 18) (7 * 86400)] initialLendingState) (by decide)⟩

/-- C2 counterexample: a loan is activated by `approveLoan` with zero
collateral deposited — `0 * 100 < amount * COLLATERAL_RATIO`, so the claimed
150% collateralization does not hold at activation. -/
theorem loan_activated_without_collateral :
    ((execTrace demoEnv approveNoCollateralOps initialLendingState).loans 1).active = true ∧
    ((execTrace demoEnv approveNoCollateralOps initialLendingState).loans 1).collateralAmount * 100
      < ((execTrace demoEnv approveNoCollateralOps initialLendingState).loans 1).amount
        * COLLATERAL_RATIO := by
  decide

/-- C2 amended: `approveLoan` never consults collateral — it succeeds
exactly when the caller is the owner, the loan exists and is unapproved, and
the pool covers the principal ( COLLATERAL_RATIO appears in no check);
moreover `depositCollateral` reverts `LoanNotApproved` on any loan that is
not yet active, so collateral can never be deposited before activation. -/
theorem approveLoan_ignores_collateral :
    (∀ (env : LendingEnv) (now caller loanId : Nat) (s : LendingState),
      isErr (approveLoan env now caller loanId s).1 = false ↔
        (caller = env.owner ∧ ¬(s.loans loanId).id = 0 ∧
          (s.loans loanId).approved = false ∧
          (s.loans loanId).amount ≤ s.totalPoolFunds)) ∧
    (∀ (sender loanId amount : Nat) (s : LendingState),
      ¬(s.loans loanId).id = 0 → (s.loans loanId).borrower = sender →
      (s.loans loanId).active = false →
        (depositCollateral sender loanId amount s).1 = .error .LoanNotApproved) := by
  constructor
  · intro env now caller loanId s
    by_cases hc : caller ≠ env.owner
    · rw [approveLoan_not_owner env now caller loanId s hc]
      exact iff_of_false (by simp [isErr]) (by rintro ⟨h, -⟩; exact hc h)
    by_cases h0 : (s.loans loanId).id = 0
    · rw [approveLoan_not_found env now caller loanId s hc h0]
      exact iff_of_false (by simp [isErr]) (by rintro ⟨-, h, -⟩; exact h h0)
    by_cases h1 : (s.loans loanId).approved = true
    · rw [approveLoan_already_approved env now caller loanId s hc h0 h1]
      exact iff_of_false (by simp [isErr]) (by rintro ⟨-, -, h, -⟩; simp [h1] at h)
    have h1' : (s.loans loanId).approved = false := by simpa using h1
    by_cases h2 : s.totalPoolFunds < (s.loans loanId).amount
    · rw [approveLoan_pool_insufficient env now caller loanId s hc h0 h1' h2]
      exact iff_of_false (by simp [isErr]) (by rintro ⟨-, -, -, h⟩; omega)
    · rw [approveLoan_ok env now caller loanId s hc h0 h1' h2]
      exact iff_of_true (by simp [isErr]) ⟨not_not.mp hc, h0, h1', by omega⟩
  · intro sender loanId amount s h0 hbor hact
    rw [depositCollateral_not_active sender loanId amount s h0 (by simp [hbor]) hact]

/-- Witness for the amended C2: a pending zero-collateral loan is approved
(the iff applied right-to-left), and a collateral deposit on a not-yet-active
loan reverts. -/
theorem approveLoan_ignores_collateral_witness :
    (isErr (approveLoan demoEnv 0 0 1
        (execTrace demoEnv [.fundPool 9 (10 * 10 ^ 18),
          .requestLoan 5 (10 * 10 ^ 18) (7 * 86400)] initialLendingState)).1 = false) ∧
    ((depositCollateral 5 1 7
        (execTrace demoEnv [.fundPool 9 (10 * 10 ^ 18),
          .requestLoan 5 (10 * 10 ^ 18) (7 * 86400)] initialLendingState)).1
      = .error .LoanNotApproved) :=
  ⟨(approveLoan_ignores_collateral.1 demoEnv 0 0 1
      (execTrace demoEnv [.fundPool 9 (10 * 10 ^ 18),
        .requestLoan 5 (10 * 10 ^ 18) (7 * 86400)] initialLendingState)).mpr
      ⟨rfl, by decide, by decide, by decide⟩,
    approveLoan_ignores_collateral.2 5 1 7
      (execTrace demoEnv [.fundPool 9 (10 * 10 ^ 18),
        .requestLoan 5 (10 * 10 ^ 18) (7 * 86400)] initialLendingState)
      (by decide) (by decide) (by decide)⟩

/-- C4 witness: a fully eligible request returns the fresh id, and an
undersized amount reverts `InvalidAmount`. -/
theorem requestLoan_characterization_witness :
    ((requestLoan demoEnv 5 (10 * 10 ^ 18) (7 * 86400)
        (execTrace demoEnv [.fundPool 9 (10 * 10 ^ 18)] initialLendingState)).1
      = .ok ((execTrace demoEnv [.fundPool 9 (10 * 10 ^ 18)] initialLendingState).loanCounter + 1)) ∧
    ((requestLoan demoEnv 5 0 (7 * 86400) initialLendingState).1 = .error .InvalidAmount) :=
  ⟨(requestLoan_characterization demoEnv 5 (10 * 10 ^ 18) (7 * 86400)
      (execTrace demoEnv [.fundPool 9 (10 * 10 ^ 18)] initialLendingState)).1.mpr
      ⟨by decide, by decide, by decide, by decide, by decide, by decide, by decide,
        by decide, by decide⟩,
    (requestLoan_characterization demoEnv 5 0 (7 * 86400) initialLendingState).2.1
      (by decide)⟩

/-- Branch of the identity hook: duplicate nullifier. -/
theorem identityHook_dup (now nullifier userIdentifier userDataLen : Nat) (s : IdentityState)
    (h : s.nullifierToUserIdentifier nullifier ≠ 0) :
    identityVerificationHook now nullifier userIdentifier userDataLen s
      = (.error .AlreadyRegistered, s) := by
  simp only [identityVerificationHook]
  rw [if_pos h]

/-- Branch of the identity hook: fresh nullifier; the registration takes
effect. -/
theorem identityHook_ok (now nullifier userIdentifier userDataLen : Nat) (s : IdentityState)
    (h : ¬ s.nullifierToUserIdentifier nullifier ≠ 0) :
    identityVerificationHook now nullifier userIdentifier userDataLen s =
      (.ok (),
        { s with
          nullifierToUserIdentifier :=
            Function.update s.nullifierToUserIdentifier nullifier userIdentifier,
          userData := Function.update s.userData userIdentifier
            (if userDataLen > 0 then
              { s.userData userIdentifier with
                isRegistered := true, registrationTime := now, reputationScore := 10,
                attestationCount := (s.userData userIdentifier).attestationCount + 1 }
             else
              { s.userData userIdentifier with
                isRegistered := true, registrationTime := now, reputationScore := 10 }),
          totalUsers := s.totalUsers + 1 }) := by
  simp only [identityVerificationHook]
  rw [if_neg h]

/-- A nonzero `nullifierToUserIdentifier` entry survives every further
verification: the hook only ever writes entries that are zero. -/
theorem identityHookStep_preserves (c : HookCall) (s : IdentityState) (n : Nat)
    (h : s.nullifierToUserIdentifier n ≠ 0) :
    (identityHookStep c s).nullifierToUserIdentifier n ≠ 0 := by
  by_cases hdup : s.nullifierToUserIdentifier c.nullifier ≠ 0
  · simp only [identityHookStep]
    rw [identityHook_dup c.now c.nullifier c.userIdentifier c.userDataLen s hdup]
    exact h
  · simp only [identityHookStep]
    rw [identityHook_ok c.now c.nullifier c.userIdentifier c.userDataLen s hdup]
    dsimp only
    by_cases hn : n = c.nullifier
    · subst hn
      exact absurd (by simpa using hdup) h
    · rw [Function.update_noteq hn]
      exact h

/-- Nonzero entries survive any sequence of verifications. -/
theorem execHooks_preserves (cs : List HookCall) :
    ∀ (s : IdentityState) (n : Nat), s.nullifierToUserIdentifier n ≠ 0 →
      (execHooks cs s).nullifierToUserIdentifier n ≠ 0 := by
  induction cs with
  | nil => exact fun s n h => h
  | cons c rest ih => exact fun s n h => ih _ n (identityHookStep_preserves c s n h)

/-- Branch of the airdrop hook: duplicate nullifier during registration. -/
theorem airdropHook_dup (now nullifier userIdentifier : Nat) (s : AirdropState)
    (hph : s.currentPhase = .Registration)
    (h : s.nullifierToUserIdentifier nullifier ≠ 0) :
    airdropVerificationHook now nullifier userIdentifier s
      = (.error .AlreadyRegistered, s) := by
  simp only [airdropVerificationHook]
  rw [if_neg (by simp [hph]), if_pos h]

/-- Branch of `handleVerification`: invalid proof. -/
theorem handleVerification_invalid (v : VerifyOutcome) (s : BackendState)
    (h : v.isValid = false) : handleVerification v s = (400, s) := by
  simp only [handleVerification]
  rw [if_pos h]

/-- Branch of `handleVerification`: duplicate nullifier. -/
theorem handleVerification_dup (v : VerifyOutcome) (s : BackendState)
    (hv : v.isValid = true)
    (h : (s.nullifierToUser (resolvedNullifier v)).isSome = true) :
    handleVerification v s = (409, s) := by
  simp only [handleVerification]
  rw [if_neg (by simp [hv]), if_pos h]

/-- Branch of `handleVerification`: fresh nullifier; the user is stored in
both maps. -/
theorem handleVerification_fresh (v : VerifyOutcome) (s : BackendState)
    (hv : v.isValid = true)
    (h : ¬ (s.nullifierToUser (resolvedNullifier v)).isSome = true) :
    handleVerification v s =
      (200,
        { users := Function.update s.users v.userIdentifier
            (some { nullifier := resolvedNullifier v, userIdentifier := v.userIdentifier,
                    reputationScore := 0, attestations := [], transactions := [] }),
          nullifierToUser := Function.update s.nullifierToUser (resolvedNullifier v)
            (some v.userIdentifier) }) := by
  simp only [handleVerification]
  rw [if_neg (by simp [hv]), if_neg h]

/-- C6: registration is once-only per nullifier.  Both contract hooks revert
`AlreadyRegistered` on a nullifier whose entry is nonzero; the backend
answers 409 on a nullifier already in `nullifierToUser`; a successful hook
writes the caller's identifier at the nullifier; and once an entry is
nonzero, the hook still reverts after any further sequence of
verifications — so at most one registration per nullifier ever takes
effect. -/
theorem nullifier_registration_once :
    (∀ (now nullifier userIdentifier userDataLen : Nat) (s : IdentityState),
      s.nullifierToUserIdentifier nullifier ≠ 0 →
        identityVerificationHook now nullifier userIdentifier userDataLen s
          = (.error .AlreadyRegistered, s)) ∧
    (∀ (now nullifier userIdentifier : Nat) (s : AirdropState),
      s.currentPhase = .Registration → s.nullifierToUserIdentifier nullifier ≠ 0 →
        airdropVerificationHook now nullifier userIdentifier s
          = (.error .AlreadyRegistered, s)) ∧
    (∀ (v : VerifyOutcome) (s : BackendState),
      v.isValid = true → (s.nullifierToUser (resolvedNullifier v)).isSome = true →
        handleVerification v s = (409, s)) ∧
    (∀ (now nullifier userIdentifier userDataLen : Nat) (s : IdentityState),
      ¬ s.nullifierToUserIdentifier nullifier ≠ 0 →
        (identityVerificationHook now nullifier userIdentifier userDataLen
            s).2.nullifierToUserIdentifier nullifier = userIdentifier) ∧
    (∀ (cs : List HookCall) (s : IdentityState) (nullifier : Nat),
      s.nullifierToUserIdentifier nullifier ≠ 0 →
      ∀ (now userIdentifier userDataLen : Nat),
        identityVerificationHook now nullifier userIdentifier userDataLen (execHooks cs s)
          = (.error .AlreadyRegistered, execHooks cs s)) := by
  refine ⟨identityHook_dup, airdropHook_dup, handleVerification_dup, ?_, ?_⟩
  · intro now nullifier userIdentifier userDataLen s h
    rw [identityHook_ok now nullifier userIdentifier userDataLen s h]
    dsimp only
    rw [Function.update_same]
  · intro cs s nullifier h now userIdentifier userDataLen
    exact identityHook_dup now nullifier userIdentifier userDataLen (execHooks cs s)
      (execHooks_preserves cs s nullifier h)

/-- C6 witness: register nullifier 7 for user 42, then watch the duplicate
paths reject it everywhere, also after a second unrelated registration. -/
theorem nullifier_registration_once_witness :
    (identityVerificationHook 1 7 43 0
        (identityHookStep ⟨0, 7, 42, 0⟩ initialIdentityState)
      = (.error .AlreadyRegistered, identityHookStep ⟨0, 7, 42, 0⟩ initialIdentityState)) ∧
    (airdropVerificationHook 1 7 43
        { currentPhase := .Registration,
          nullifierToUserIdentifier := Function.update (fun _ => 0) 7 42,
          userData := fun _ => defaultAirdropUserData,
          totalRegistered := 1 }
      = (.error .AlreadyRegistered,
        { currentPhase := .Registration,
          nullifierToUserIdentifier := Function.update (fun _ => 0) 7 42,
          userData := fun _ => defaultAirdropUserData,
          totalRegistered := 1 })) ∧
    (handleVerification { isValid := true, userIdentifier := "bob", nullifier := some "nullifier-1" }
        (handleVerification { isValid := true, userIdentifier := "alice", nullifier := some "nullifier-1" }
          emptyBackendState).2
      = (409,
        (handleVerification { isValid := true, userIdentifier := "alice", nullifier := some "nullifier-1" }
          emptyBackendState).2)) ∧
    ((identityVerificationHook 0 7 42 0 initialIdentityState).2.nullifierToUserIdentifier 7 = 42) ∧
    (identityVerificationHook 2 7 44 0
        (execHooks [⟨1, 8, 43, 0⟩] (identityHookStep ⟨0, 7, 42, 0⟩ initialIdentityState))
      = (.error .AlreadyRegistered,
        execHooks [⟨1, 8, 43, 0⟩] (identityHookStep ⟨0, 7, 42, 0⟩ initialIdentityState))) :=
  ⟨nullifier_registration_once.1 1 7 43 0 (identityHookStep ⟨0, 7, 42, 0⟩ initialIdentityState)
      (by decide),
    nullifier_registration_once.2.1 1 7 43 _ rfl (by decide),
    nullifier_registration_once.2.2.1 _ _ rfl (by decide),
    nullifier_registration_once.2.2.2.1 0 7 42 0 initialIdentityState (by decide),
    nullifier_registration_once.2.2.2.2 [⟨1, 8, 43, 0⟩]
      (identityHookStep ⟨0, 7, 42, 0⟩ initialIdentityState) 7 (by decide) 2 44 0⟩

/-- C5 counterexample: the `POST /api/verify` dispatch is not stateless.
The very same request is answered 200 the first time and 409 the second
time, and handling it changes the `users` map. -/
theorem apiVerify_is_stateful :
    (apiVerify aliceRequest emptyBackendState).1.status = 200 ∧
    (apiVerify aliceRequest (apiVerify aliceRequest emptyBackendState).2).1.status = 409 ∧
    (apiVerify aliceRequest emptyBackendState).2.users "alice"
      ≠ emptyBackendState.users "alice" := by
  refine ⟨by decide, by decide, by decide⟩

/-- C5 amended: the dispatch is an action switch over the in-memory maps,
but it is stateful — `handleVerification` on a fresh nullifier inserts the
user into `users` and `nullifierToUser` and answers 200, while on a
nullifier already present it answers 409 with the store unchanged, so the
response depends on the requests processed before. -/
theorem handleVerification_mutates_store :
    (∀ (v : VerifyOutcome) (s : BackendState),
      v.isValid = true → (s.nullifierToUser (resolvedNullifier v)).isSome = false →
        (handleVerification v s).1 = 200 ∧
        (handleVerification v s).2.users v.userIdentifier
          = some { nullifier := resolvedNullifier v, userIdentifier := v.userIdentifier,
                   reputationScore := 0, attestations := [], transactions := [] } ∧
        (handleVerification v s).2.nullifierToUser (resolvedNullifier v)
          = some v.userIdentifier) ∧
    (∀ (v : VerifyOutcome) (s : BackendState),
      v.isValid = true → (s.nullifierToUser (resolvedNullifier v)).isSome = true →
        handleVerification v s = (409, s)) := by
  constructor
  · intro v s hv h
    rw [handleVerification_fresh v s hv (by simp [h])]
    refine ⟨rfl, ?_, ?_⟩
    · dsimp only
      rw [Function.update_same]
    · dsimp only
      rw [Function.update_same]
  · exact handleVerification_dup

/-- C5 amended witness: a concrete fresh verification and its duplicate. -/
theorem handleVerification_mutates_store_witness :
    ((handleVerification { isValid := true, userIdentifier := "alice", nullifier := some "nullifier-1" }
        emptyBackendState).1 = 200 ∧
      (handleVerification { isValid := true, userIdentifier := "alice", nullifier := some "nullifier-1" }
        emptyBackendState).2.users "alice"
        = some { nullifier := "nullifier-1", userIdentifier := "alice",
                 reputationScore := 0, attestations := [], transactions := [] } ∧
      (handleVerification { isValid := true, userIdentifier := "alice", nullifier := some "nullifier-1" }
        emptyBackendState).2.nullifierToUser "nullifier-1" = some "alice") ∧
    (handleVerification { isValid := true, userIdentifier := "alice", nullifier := some "nullifier-1" }
        (handleVerification { isValid := true, userIdentifier := "alice", nullifier := some "nullifier-1" }
          emptyBackendState).2
      = (409,
        (handleVerification { isValid := true, userIdentifier := "alice", nullifier := some "nullifier-1" }
          emptyBackendState).2)) :=
  ⟨handleVerification_mutates_store.1
      { isValid := true, userIdentifier := "alice", nullifier := some "nullifier-1" }
      emptyBackendState rfl (by decide),
    handleVerification_mutates_store.2
      { isValid := true, userIdentifier := "alice", nullifier := some "nullifier-1" }
      (handleVerification { isValid := true, userIdentifier := "alice", nullifier := some "nullifier-1" }
        emptyBackendState).2 rfl (by decide)⟩

/-- C10 counterexample: an unknown user asking for a microloan of 0 (falsy
in JavaScript) is approved 75, not `min 0 75 = 0` as the claim states. -/
theorem microloan_zero_request_counterexample :
    (handleMicroloan "u1" (some 0) emptyBackendState).1.approvedAmount = some 75 ∧
    ¬((75 : ℚ) = min 0 75) := by
  constructor
  · have h : emptyBackendState.users "u1" = none := rfl
    simp only [handleMicroloan, h]
    rw [if_neg (by norm_num)]
    dsimp only
    norm_num [min_def]
  · norm_num [min_def]

/-- C10 amended: backend reputation gates are unreachable for unknown users.
An absent `userIdentifier` gets a record with `reputationScore` 50 — exactly
the microloan threshold — so `handleMicroloan` always answers 200, approving
`min requestedAmount 75` when the requested amount is present and nonzero
and 75 when it is absent or zero (the JavaScript `||` fall-through);
likewise `handleGovernance` gives unknown users `reputationScore` 100 and
always answers 200. -/
theorem unknown_user_gates_unreachable :
    (∀ (uid : String) (r : Option ℚ) (s : BackendState), s.users uid = none →
      (handleMicroloan uid r s).1.status = 200 ∧
      (((handleMicroloan uid r s).2.users uid).map fun u => u.reputationScore) = some 50 ∧
      ((r = none ∨ r = some 0) → (handleMicroloan uid r s).1.approvedAmount = some 75) ∧
      (∀ q : ℚ, r = some q → ¬ q = 0 →
        (handleMicroloan uid r s).1.approvedAmount = some (min q 75))) ∧
    (∀ (uid proposalId vote : String) (s : BackendState), s.users uid = none →
      (handleGovernance uid proposalId vote s).1 = 200 ∧
      (((handleGovernance uid proposalId vote s).2.users uid).map fun u => u.reputationScore)
        = some 100) := by
  have hmax : min (50 + (50 : ℚ) * (1 / 2)) 500 = 75 := by norm_num
  constructor
  · intro uid r s h
    simp only [handleMicroloan, h]
    rw [if_neg (by norm_num)]
    refine ⟨rfl, ?_, ?_, ?_⟩
    · dsimp only
      rw [Function.update_same]
      rfl
    · rintro (rfl | rfl)
      · dsimp only
        rw [hmax]
        simp
      · dsimp only
        rw [hmax]
        norm_num
    · rintro q rfl hq
      dsimp only
      rw [if_neg hq, hmax]
  · intro uid proposalId vote s h
    simp only [handleGovernance, h]
    rw [if_neg (by norm_num)]
    refine ⟨rfl, ?_⟩
    dsimp only
    rw [Function.update_same]
    rfl

/-- C10 amended witness: a concrete unknown user over the empty store. -/
theorem unknown_user_gates_unreachable_witness :
    ((handleMicroloan "u2" (some 40) emptyBackendState).1.status = 200) ∧
    ((handleMicroloan "u2" (some 40) emptyBackendState).1.approvedAmount
      = some (min 40 75)) ∧
    ((handleMicroloan "u3" none emptyBackendState).1.approvedAmount = some 75) ∧
    ((handleGovernance "u4" "p1" "Yes" emptyBackendState).1 = 200) :=
  ⟨(unknown_user_gates_unreachable.1 "u2" (some 40) emptyBackendState rfl).1,
    (unknown_user_gates_unreachable.1 "u2" (some 40) emptyBackendState rfl).2.2.2 40 rfl
      (by norm_num),
    (unknown_user_gates_unreachable.1 "u3" none emptyBackendState rfl).2.2.1 (.inl rfl),
    (unknown_user_gates_unreachable.2 "u4" "p1" "Yes" emptyBackendState rfl).1⟩

end ZKUnbanked